import Mathlib

/-!
Verification development for the mathcat 3D bounding-volume kernel.

The kernel's numeric code is embedded shallowly over an arbitrary linear
ordered field `K` (exact arithmetic).  Queries against the empty-box
sentinel `[+inf,+inf,+inf,-inf,-inf,-inf]` are additionally modelled over
`JSNum`, exact rationals extended with the IEEE special values
`+inf`, `-inf` and `nan`, so that the sentinel's infinities and their
propagation through comparisons and arithmetic are captured faithfully.
-/

namespace Mathcat

/-- A 3-component vector, the kernel's `Vec3` (a 3-element array in the source). -/
structure Vec3 (K : Type) where
  x : K
  y : K
  z : K
deriving DecidableEq

/-- A 3x3 matrix in column-major order, the kernel's `Mat3`
(`m0 m1 m2` form the first column, as in the source's flat array). -/
structure Mat3 (K : Type) where
  m0 : K
  m1 : K
  m2 : K
  m3 : K
  m4 : K
  m5 : K
  m6 : K
  m7 : K
  m8 : K
deriving DecidableEq

/-- A 4x4 matrix in column-major order, the kernel's `Mat4`
(`m12 m13 m14` is the translation column). -/
structure Mat4 (K : Type) where
  m0 : K
  m1 : K
  m2 : K
  m3 : K
  m4 : K
  m5 : K
  m6 : K
  m7 : K
  m8 : K
  m9 : K
  m10 : K
  m11 : K
  m12 : K
  m13 : K
  m14 : K
  m15 : K
deriving DecidableEq

/-- An axis-aligned box.  The source stores it as the flat array
`[minX, minY, minZ, maxX, maxY, maxZ]` (nested `[min, max]` in the older
modules); the six scalars are the same either way. -/
structure Box3 (K : Type) where
  minX : K
  minY : K
  minZ : K
  maxX : K
  maxY : K
  maxZ : K
deriving DecidableEq

/-- A sphere, `{ center, radius }` in the source. -/
structure Sphere (K : Type) where
  center : Vec3 K
  radius : K
deriving DecidableEq

/-- A plane, `{ normal, constant }` in the source. -/
structure Plane3 (K : Type) where
  normal : Vec3 K
  constant : K
deriving DecidableEq

/-- An oriented box, `{ center, halfExtents, rotation }` in the source
(the current `obb3` module stores rotation as a `Mat3`). -/
structure OBB3 (K : Type) where
  center : Vec3 K
  halfExtents : Vec3 K
  rotation : Mat3 K
deriving DecidableEq

/-- A bounded ray, `{ origin, direction, length }` in the source. -/
structure Raycast3 (K : Type) where
  origin : Vec3 K
  direction : Vec3 K
  length : K
deriving DecidableEq

/-- Output record of the ray-triangle test, `IntersectsTriangleResult`. -/
structure IntersectsTriangleResult (K : Type) where
  fraction : K
  hit : Bool
  frontFacing : Bool
deriving DecidableEq

variable {K : Type} [LinearOrderedField K]

namespace vec3

/-- `vec3.add`. -/
def add (a b : Vec3 K) : Vec3 K := ⟨a.x + b.x, a.y + b.y, a.z + b.z⟩

/-- `vec3.subtract`. -/
def sub (a b : Vec3 K) : Vec3 K := ⟨a.x - b.x, a.y - b.y, a.z - b.z⟩

/-- `vec3.scale`. -/
def scale (a : Vec3 K) (s : K) : Vec3 K := ⟨a.x * s, a.y * s, a.z * s⟩

/-- `vec3.negate`. -/
def neg (a : Vec3 K) : Vec3 K := ⟨-a.x, -a.y, -a.z⟩

/-- `vec3.dot`. -/
def dot (a b : Vec3 K) : K := a.x * b.x + a.y * b.y + a.z * b.z

/-- `vec3.cross`. -/
def cross (a b : Vec3 K) : Vec3 K :=
  ⟨a.y * b.z - a.z * b.y, a.z * b.x - a.x * b.z, a.x * b.y - a.y * b.x⟩

/-- `vec3.transformMat4` (gl-matrix convention used throughout the library):
homogeneous transform with the `w = w || 1` guard, so a zero homogeneous
weight is replaced by `1` before the division. -/
def transformMat4 (a : Vec3 K) (m : Mat4 K) : Vec3 K :=
  let w0 := m.m3 * a.x + m.m7 * a.y + m.m11 * a.z + m.m15
  let w := if w0 = 0 then 1 else w0
  ⟨(m.m0 * a.x + m.m4 * a.y + m.m8 * a.z + m.m12) / w,
   (m.m1 * a.x + m.m5 * a.y + m.m9 * a.z + m.m13) / w,
   (m.m2 * a.x + m.m6 * a.y + m.m10 * a.z + m.m14) / w⟩

end vec3

namespace box3

/-- `box3.containsPoint`: inclusive containment on all six boundaries. -/
def containsPoint (box : Box3 K) (point : Vec3 K) : Bool :=
  decide (point.x ≥ box.minX) && decide (point.x ≤ box.maxX) &&
  decide (point.y ≥ box.minY) && decide (point.y ≤ box.maxY) &&
  decide (point.z ≥ box.minZ) && decide (point.z ≤ box.maxZ)

/-- `box3.containsBox3`: inclusive box-in-box containment. -/
def containsBox3 (container contained : Box3 K) : Bool :=
  decide (contained.minX ≥ container.minX) && decide (contained.maxX ≤ container.maxX) &&
  decide (contained.minY ≥ container.minY) && decide (contained.maxY ≤ container.maxY) &&
  decide (contained.minZ ≥ container.minZ) && decide (contained.maxZ ≤ container.maxZ)

/-- `box3.intersectsBox3`: closed-interval overlap test per axis. -/
def intersectsBox3 (boxA boxB : Box3 K) : Bool :=
  decide (boxA.minX ≤ boxB.maxX) && decide (boxA.maxX ≥ boxB.minX) &&
  decide (boxA.minY ≤ boxB.maxY) && decide (boxA.maxY ≥ boxB.minY) &&
  decide (boxA.minZ ≤ boxB.maxZ) && decide (boxA.maxZ ≥ boxB.minZ)

/-- `_satForAxes`: one pass of the separating-axis loop over a list of axes
(the source packs the axes in a flat scratch array; the list of 3-vectors
holds the same axes in the same order).  A zero axis is skipped. -/
def satForAxes (extents v0 v1 v2 : Vec3 K) : List (Vec3 K) → Bool
  | [] => true
  | ax :: rest =>
    if ax.x = 0 ∧ ax.y = 0 ∧ ax.z = 0 then satForAxes extents v0 v1 v2 rest
    else
      let p0 := v0.x * ax.x + v0.y * ax.y + v0.z * ax.z
      let p1 := v1.x * ax.x + v1.y * ax.y + v1.z * ax.z
      let p2 := v2.x * ax.x + v2.y * ax.y + v2.z * ax.z
      let mm1 : K × K := if p1 < p0 then (p1, p0) else if p1 > p0 then (p0, p1) else (p0, p0)
      let mm2 : K × K :=
        if p2 < mm1.1 then (p2, mm1.2) else if p2 > mm1.2 then (mm1.1, p2) else mm1
      let r := extents.x * |ax.x| + extents.y * |ax.y| + extents.z * |ax.z|
      if mm2.2 < -r ∨ mm2.1 > r then false else satForAxes extents v0 v1 v2 rest

/-- `box3.intersectsTriangle3`: the 13-axis AABB-triangle SAT test. -/
def intersectsTriangle3 (box : Box3 K) (a b c : Vec3 K) : Bool :=
  if box.minX > box.maxX ∨ box.minY > box.maxY ∨ box.minZ > box.maxZ then false
  else
    let center : Vec3 K :=
      ⟨(box.minX + box.maxX) * (1 / 2), (box.minY + box.maxY) * (1 / 2),
       (box.minZ + box.maxZ) * (1 / 2)⟩
    let extents : Vec3 K := ⟨box.maxX - center.x, box.maxY - center.y, box.maxZ - center.z⟩
    let v0 := vec3.sub a center
    let v1 := vec3.sub b center
    let v2 := vec3.sub c center
    let f0 := vec3.sub v1 v0
    let f1 := vec3.sub v2 v1
    let f2 := vec3.sub v0 v2
    let axesCross : List (Vec3 K) :=
      [⟨0, -f0.z, f0.y⟩, ⟨0, -f1.z, f1.y⟩, ⟨0, -f2.z, f2.y⟩,
       ⟨f0.z, 0, -f0.x⟩, ⟨f1.z, 0, -f1.x⟩, ⟨f2.z, 0, -f2.x⟩,
       ⟨-f0.y, f0.x, 0⟩, ⟨-f1.y, f1.x, 0⟩, ⟨-f2.y, f2.x, 0⟩]
    if !(satForAxes extents v0 v1 v2 axesCross) then false
    else if !(satForAxes extents v0 v1 v2 [⟨1, 0, 0⟩, ⟨0, 1, 0⟩, ⟨0, 0, 1⟩]) then false
    else satForAxes extents v0 v1 v2 [vec3.cross f0 f1]

/-- The 8 corners of a box, in the order of the source's `i & 1 / i & 2 / i & 4`
loop in `transformMat4`. -/
def corners (box : Box3 K) : List (Vec3 K) :=
  [⟨box.minX, box.minY, box.minZ⟩, ⟨box.maxX, box.minY, box.minZ⟩,
   ⟨box.minX, box.maxY, box.minZ⟩, ⟨box.maxX, box.maxY, box.minZ⟩,
   ⟨box.minX, box.minY, box.maxZ⟩, ⟨box.maxX, box.minY, box.maxZ⟩,
   ⟨box.minX, box.maxY, box.maxZ⟩, ⟨box.maxX, box.maxY, box.maxZ⟩]

/-- One accumulation step of `box3.transformMat4`: widen the running bounds
to cover one transformed corner (the source's six compare-and-assign lines). -/
def expandCorner (acc : Box3 K) (p : Vec3 K) : Box3 K :=
  ⟨if p.x < acc.minX then p.x else acc.minX,
   if p.y < acc.minY then p.y else acc.minY,
   if p.z < acc.minZ then p.z else acc.minZ,
   if p.x > acc.maxX then p.x else acc.maxX,
   if p.y > acc.maxY then p.y else acc.maxY,
   if p.z > acc.maxZ then p.z else acc.maxZ⟩

/-- `box3.transformMat4`: transform all 8 corners and accumulate new min/max.
The source seeds the accumulator with the `(+inf, -inf)` sentinel so that the
first corner always replaces it; over an abstract ordered field the fold is
seeded with the first transformed corner, which yields the same bounds. -/
def transformMat4 (box : Box3 K) (mat : Mat4 K) : Box3 K :=
  match (corners box).map (fun p => vec3.transformMat4 p mat) with
  | [] => box
  | t :: ts => ts.foldl expandCorner ⟨t.x, t.y, t.z, t.x, t.y, t.z⟩

end box3

namespace raycast3

/-- One axis (slab) of `raycast3.intersectsBox3`: returns the narrowed
parametric interval, or `none` when the axis rejects the ray. -/
def slabCheck (mn mx o d : K) (tmm : K × K) : Option (K × K) :=
  if |d| < 1 / 10 ^ 10 then
    if o < mn ∨ o > mx then none else some tmm
  else
    let invD := 1 / d
    let t0 := (mn - o) * invD
    let t1 := (mx - o) * invD
    let u0 := if invD < 0 then t1 else t0
    let u1 := if invD < 0 then t0 else t1
    let tmin := max tmm.1 u0
    let tmax := min tmm.2 u1
    if tmax < tmin then none else some (tmin, tmax)

/-- `raycast3.intersectsBox3`: the slab test over the three axes, starting
from the interval `[0, ray.length]`. -/
def intersectsBox3 (ray : Raycast3 K) (aabb : Box3 K) : Bool :=
  match slabCheck aabb.minX aabb.maxX ray.origin.x ray.direction.x (0, ray.length) with
  | none => false
  | some tmm1 =>
    match slabCheck aabb.minY aabb.maxY ray.origin.y ray.direction.y tmm1 with
    | none => false
    | some tmm2 =>
      match slabCheck aabb.minZ aabb.maxZ ray.origin.z ray.direction.z tmm2 with
      | none => false
      | some _ => true

/-- The all-fields-written miss result: `hit = false, fraction = 0,
frontFacing = false`, as assigned in every rejection branch of the source. -/
def missResult : IntersectsTriangleResult K := ⟨0, false, false⟩

/-- `raycast3.intersectsTriangle`: Moller-style ray-triangle test with
front/back-face semantics.  The source's two sign-determination branches
(`DdN > 0` backface, `DdN < 0` frontface) are expressed through the `sign`
and sign-adjusted `DdN` bindings. -/
def intersectsTriangle (ray : Raycast3 K) (a b c : Vec3 K) (backfaceCulling : Bool) :
    IntersectsTriangleResult K :=
  let edge1 := vec3.sub b a
  let edge2 := vec3.sub c a
  let normal := vec3.cross edge1 edge2
  let DdN0 := vec3.dot ray.direction normal
  if DdN0 > 0 ∧ backfaceCulling then missResult
  else if DdN0 = 0 then missResult
  else
    let sign : K := if DdN0 > 0 then 1 else -1
    let DdN := if DdN0 > 0 then DdN0 else -DdN0
    let diff := vec3.sub ray.origin a
    let DdQxE2 := sign * vec3.dot ray.direction (vec3.cross diff edge2)
    if DdQxE2 < 0 then missResult
    else
      let DdE1xQ := sign * vec3.dot ray.direction (vec3.cross edge1 diff)
      if DdE1xQ < 0 then missResult
      else if DdQxE2 + DdE1xQ > DdN then missResult
      else
        let QdN := -sign * vec3.dot diff normal
        if QdN < 0 then missResult
        else
          let t := QdN / DdN
          if t ≤ ray.length then ⟨t / ray.length, true, decide (sign < 0)⟩
          else missResult

end raycast3

namespace mat3

/-- First column of a column-major `Mat3` - the OBB's local x axis, as
extracted in the source (`rotA[0], rotA[1], rotA[2]`). -/
def col0 (m : Mat3 K) : Vec3 K := ⟨m.m0, m.m1, m.m2⟩

/-- Second column - the local y axis (`rotA[3..5]`). -/
def col1 (m : Mat3 K) : Vec3 K := ⟨m.m3, m.m4, m.m5⟩

/-- Third column - the local z axis (`rotA[6..8]`). -/
def col2 (m : Mat3 K) : Vec3 K := ⟨m.m6, m.m7, m.m8⟩

/-- `mat3.multiply` (gl-matrix convention, column-major): `multiply a b`
is the matrix product `a * b` acting on column vectors. -/
def multiply (a b : Mat3 K) : Mat3 K :=
  ⟨b.m0 * a.m0 + b.m1 * a.m3 + b.m2 * a.m6,
   b.m0 * a.m1 + b.m1 * a.m4 + b.m2 * a.m7,
   b.m0 * a.m2 + b.m1 * a.m5 + b.m2 * a.m8,
   b.m3 * a.m0 + b.m4 * a.m3 + b.m5 * a.m6,
   b.m3 * a.m1 + b.m4 * a.m4 + b.m5 * a.m7,
   b.m3 * a.m2 + b.m4 * a.m5 + b.m5 * a.m8,
   b.m6 * a.m0 + b.m7 * a.m3 + b.m8 * a.m6,
   b.m6 * a.m1 + b.m7 * a.m4 + b.m8 * a.m7,
   b.m6 * a.m2 + b.m7 * a.m5 + b.m8 * a.m8⟩

/-- `mat3.fromMat4`: the upper-left 3x3 block of a 4x4 matrix. -/
def fromMat4 (m : Mat4 K) : Mat3 K :=
  ⟨m.m0, m.m1, m.m2, m.m4, m.m5, m.m6, m.m8, m.m9, m.m10⟩

/-- `mat3.identity`. -/
def identity : Mat3 K := ⟨1, 0, 0, 0, 1, 0, 0, 0, 1⟩

end mat3

namespace mat4

/-- `mat4.determinant` (gl-matrix cofactor formulation over the six 2x2
minors of the top and bottom halves). -/
def determinant (m : Mat4 K) : K :=
  (m.m0 * m.m5 - m.m1 * m.m4) * (m.m10 * m.m15 - m.m11 * m.m14) -
  (m.m0 * m.m6 - m.m2 * m.m4) * (m.m9 * m.m15 - m.m11 * m.m13) +
  (m.m0 * m.m7 - m.m3 * m.m4) * (m.m9 * m.m14 - m.m10 * m.m13) +
  (m.m1 * m.m6 - m.m2 * m.m5) * (m.m8 * m.m15 - m.m11 * m.m12) -
  (m.m1 * m.m7 - m.m3 * m.m5) * (m.m8 * m.m14 - m.m10 * m.m12) +
  (m.m2 * m.m7 - m.m3 * m.m6) * (m.m8 * m.m13 - m.m9 * m.m12)

end mat4

namespace obb3

/-- `obb3.containsPoint`: project `point - center` onto the three rotation
columns (multiplication by the transpose) and compare against the half
extents, inclusively. -/
def containsPoint (obb : OBB3 K) (point : Vec3 K) : Bool :=
  let d : Vec3 K := vec3.sub point obb.center
  decide (|vec3.dot d (mat3.col0 obb.rotation)| ≤ obb.halfExtents.x) &&
  decide (|vec3.dot d (mat3.col1 obb.rotation)| ≤ obb.halfExtents.y) &&
  decide (|vec3.dot d (mat3.col2 obb.rotation)| ≤ obb.halfExtents.z)

/-- `obb3.clampPoint` (Ericson 5.1.4): start at the center and walk along
each axis by the projection of `point - center` clamped to the half extent.
The source's `Math.max(-he, Math.min(he, dist))` is `max (-he) (min he dist)`. -/
def clampPoint (obb : OBB3 K) (point : Vec3 K) : Vec3 K :=
  let d : Vec3 K := vec3.sub point obb.center
  let d0 := max (-obb.halfExtents.x) (min obb.halfExtents.x (vec3.dot d (mat3.col0 obb.rotation)))
  let d1 := max (-obb.halfExtents.y) (min obb.halfExtents.y (vec3.dot d (mat3.col1 obb.rotation)))
  let d2 := max (-obb.halfExtents.z) (min obb.halfExtents.z (vec3.dot d (mat3.col2 obb.rotation)))
  ⟨obb.center.x + obb.rotation.m0 * d0 + obb.rotation.m3 * d1 + obb.rotation.m6 * d2,
   obb.center.y + obb.rotation.m1 * d0 + obb.rotation.m4 * d1 + obb.rotation.m7 * d2,
   obb.center.z + obb.rotation.m2 * d0 + obb.rotation.m5 * d1 + obb.rotation.m8 * d2⟩

/-- Entry `R[0][0] = dot(aU[0], bU[0])` of the scratch rotation matrix
expressing `b` in `a`'s frame. -/
def R00 (a b : OBB3 K) : K := vec3.dot (mat3.col0 a.rotation) (mat3.col0 b.rotation)

/-- Entry `R[0][1]`. -/
def R01 (a b : OBB3 K) : K := vec3.dot (mat3.col0 a.rotation) (mat3.col1 b.rotation)

/-- Entry `R[0][2]`. -/
def R02 (a b : OBB3 K) : K := vec3.dot (mat3.col0 a.rotation) (mat3.col2 b.rotation)

/-- Entry `R[1][0]`. -/
def R10 (a b : OBB3 K) : K := vec3.dot (mat3.col1 a.rotation) (mat3.col0 b.rotation)

/-- Entry `R[1][1]`. -/
def R11 (a b : OBB3 K) : K := vec3.dot (mat3.col1 a.rotation) (mat3.col1 b.rotation)

/-- Entry `R[1][2]`. -/
def R12 (a b : OBB3 K) : K := vec3.dot (mat3.col1 a.rotation) (mat3.col2 b.rotation)

/-- Entry `R[2][0]`. -/
def R20 (a b : OBB3 K) : K := vec3.dot (mat3.col2 a.rotation) (mat3.col0 b.rotation)

/-- Entry `R[2][1]`. -/
def R21 (a b : OBB3 K) : K := vec3.dot (mat3.col2 a.rotation) (mat3.col1 b.rotation)

/-- Entry `R[2][2]`. -/
def R22 (a b : OBB3 K) : K := vec3.dot (mat3.col2 a.rotation) (mat3.col2 b.rotation)

/-- The translation `b.center - a.center` expressed in `a`'s frame,
component 0 (`_intersectsOBB3_tInA[0]`). -/
def tA0 (a b : OBB3 K) : K :=
  vec3.dot (vec3.sub b.center a.center) (mat3.col0 a.rotation)

/-- Translation component 1 in `a`'s frame. -/
def tA1 (a b : OBB3 K) : K :=
  vec3.dot (vec3.sub b.center a.center) (mat3.col1 a.rotation)

/-- Translation component 2 in `a`'s frame. -/
def tA2 (a b : OBB3 K) : K :=
  vec3.dot (vec3.sub b.center a.center) (mat3.col2 a.rotation)

/-- `obb3.intersectsOBB3`: the 15-axis separating-axis test (Ericson 4.4.1),
with `AbsR[i][j] = |R[i][j]| + epsilon` guarding near-parallel axis pairs.
The source tests, in order: A's three face axes, B's three face axes, then
the nine cross axes `Ai x Bj`, returning `false` from the first separating
axis; that early-return chain is the short-circuit conjunction below, with
the comparisons in the same order. -/
def intersectsOBB3 (a b : OBB3 K) (epsilon : K) : Bool :=
  !decide (a.halfExtents.x +
      (b.halfExtents.x * (|R00 a b| + epsilon) + b.halfExtents.y * (|R01 a b| + epsilon) +
        b.halfExtents.z * (|R02 a b| + epsilon)) < |tA0 a b|) &&
  !decide (a.halfExtents.y +
      (b.halfExtents.x * (|R10 a b| + epsilon) + b.halfExtents.y * (|R11 a b| + epsilon) +
        b.halfExtents.z * (|R12 a b| + epsilon)) < |tA1 a b|) &&
  !decide (a.halfExtents.z +
      (b.halfExtents.x * (|R20 a b| + epsilon) + b.halfExtents.y * (|R21 a b| + epsilon) +
        b.halfExtents.z * (|R22 a b| + epsilon)) < |tA2 a b|) &&
  !decide (a.halfExtents.x * (|R00 a b| + epsilon) + a.halfExtents.y * (|R10 a b| + epsilon) +
      a.halfExtents.z * (|R20 a b| + epsilon) + b.halfExtents.x <
      |tA0 a b * R00 a b + tA1 a b * R10 a b + tA2 a b * R20 a b|) &&
  !decide (a.halfExtents.x * (|R01 a b| + epsilon) + a.halfExtents.y * (|R11 a b| + epsilon) +
      a.halfExtents.z * (|R21 a b| + epsilon) + b.halfExtents.y <
      |tA0 a b * R01 a b + tA1 a b * R11 a b + tA2 a b * R21 a b|) &&
  !decide (a.halfExtents.x * (|R02 a b| + epsilon) + a.halfExtents.y * (|R12 a b| + epsilon) +
      a.halfExtents.z * (|R22 a b| + epsilon) + b.halfExtents.z <
      |tA0 a b * R02 a b + tA1 a b * R12 a b + tA2 a b * R22 a b|) &&
  !decide (a.halfExtents.y * (|R20 a b| + epsilon) + a.halfExtents.z * (|R10 a b| + epsilon) +
      (b.halfExtents.y * (|R02 a b| + epsilon) + b.halfExtents.z * (|R01 a b| + epsilon)) <
      |tA2 a b * R10 a b - tA1 a b * R20 a b|) &&
  !decide (a.halfExtents.y * (|R21 a b| + epsilon) + a.halfExtents.z * (|R11 a b| + epsilon) +
      (b.halfExtents.x * (|R02 a b| + epsilon) + b.halfExtents.z * (|R00 a b| + epsilon)) <
      |tA2 a b * R11 a b - tA1 a b * R21 a b|) &&
  !decide (a.halfExtents.y * (|R22 a b| + epsilon) + a.halfExtents.z * (|R12 a b| + epsilon) +
      (b.halfExtents.x * (|R01 a b| + epsilon) + b.halfExtents.y * (|R00 a b| + epsilon)) <
      |tA2 a b * R12 a b - tA1 a b * R22 a b|) &&
  !decide (a.halfExtents.x * (|R20 a b| + epsilon) + a.halfExtents.z * (|R00 a b| + epsilon) +
      (b.halfExtents.y * (|R12 a b| + epsilon) + b.halfExtents.z * (|R11 a b| + epsilon)) <
      |tA0 a b * R20 a b - tA2 a b * R00 a b|) &&
  !decide (a.halfExtents.x * (|R21 a b| + epsilon) + a.halfExtents.z * (|R01 a b| + epsilon) +
      (b.halfExtents.x * (|R12 a b| + epsilon) + b.halfExtents.z * (|R10 a b| + epsilon)) <
      |tA0 a b * R21 a b - tA2 a b * R01 a b|) &&
  !decide (a.halfExtents.x * (|R22 a b| + epsilon) + a.halfExtents.z * (|R02 a b| + epsilon) +
      (b.halfExtents.x * (|R11 a b| + epsilon) + b.halfExtents.y * (|R10 a b| + epsilon)) <
      |tA0 a b * R22 a b - tA2 a b * R02 a b|) &&
  !decide (a.halfExtents.x * (|R10 a b| + epsilon) + a.halfExtents.y * (|R00 a b| + epsilon) +
      (b.halfExtents.y * (|R22 a b| + epsilon) + b.halfExtents.z * (|R21 a b| + epsilon)) <
      |tA1 a b * R00 a b - tA0 a b * R10 a b|) &&
  !decide (a.halfExtents.x * (|R11 a b| + epsilon) + a.halfExtents.y * (|R01 a b| + epsilon) +
      (b.halfExtents.x * (|R22 a b| + epsilon) + b.halfExtents.z * (|R20 a b| + epsilon)) <
      |tA1 a b * R01 a b - tA0 a b * R11 a b|) &&
  !decide (a.halfExtents.x * (|R12 a b| + epsilon) + a.halfExtents.y * (|R02 a b| + epsilon) +
      (b.halfExtents.x * (|R21 a b| + epsilon) + b.halfExtents.y * (|R20 a b| + epsilon)) <
      |tA1 a b * R02 a b - tA0 a b * R12 a b|)

/-- Columns of the rotation matrix are unit length and mutually orthogonal -
the data-model invariant of the OBB's rotation. -/
def Orthonormal (M : Mat3 K) : Prop :=
  vec3.dot (mat3.col0 M) (mat3.col0 M) = 1 ∧
  vec3.dot (mat3.col0 M) (mat3.col1 M) = 0 ∧
  vec3.dot (mat3.col0 M) (mat3.col2 M) = 0 ∧
  vec3.dot (mat3.col1 M) (mat3.col1 M) = 1 ∧
  vec3.dot (mat3.col1 M) (mat3.col2 M) = 0 ∧
  vec3.dot (mat3.col2 M) (mat3.col2 M) = 1

/-- The determinant of a `Mat3`, as the scalar triple product of its columns. -/
def det3 (M : Mat3 K) : K :=
  vec3.dot (mat3.col0 M) (vec3.cross (mat3.col1 M) (mat3.col2 M))

/-- `obb3.applyMatrix4` (current `Mat3`-rotation module): extract the column
scale magnitudes, flip `sx` on reflection, normalize the 3x3 block to a pure
rotation, compose it on the left of the OBB's rotation, scale the half
extents, and transform the center through the full matrix.  Stated over the
reals because the scale extraction takes square roots. -/
noncomputable def applyMatrix4 (obb : OBB3 ℝ) (matrix : Mat4 ℝ) : OBB3 ℝ :=
  let sx0 := Real.sqrt (matrix.m0 ^ 2 + matrix.m1 ^ 2 + matrix.m2 ^ 2)
  let sy := Real.sqrt (matrix.m4 ^ 2 + matrix.m5 ^ 2 + matrix.m6 ^ 2)
  let sz := Real.sqrt (matrix.m8 ^ 2 + matrix.m9 ^ 2 + matrix.m10 ^ 2)
  let det := mat4.determinant matrix
  let sx := if det < 0 then -sx0 else sx0
  let rot := mat3.fromMat4 matrix
  let rotationMat : Mat3 ℝ :=
    ⟨rot.m0 * (1 / sx), rot.m1 * (1 / sx), rot.m2 * (1 / sx),
     rot.m3 * (1 / sy), rot.m4 * (1 / sy), rot.m5 * (1 / sy),
     rot.m6 * (1 / sz), rot.m7 * (1 / sz), rot.m8 * (1 / sz)⟩
  { rotation := mat3.multiply rotationMat obb.rotation
    halfExtents := ⟨obb.halfExtents.x * |sx|, obb.halfExtents.y * |sy|, obb.halfExtents.z * |sz|⟩
    center := vec3.transformMat4 obb.center matrix }

end obb3

/-- A JavaScript number in the exact model: a rational value or one of the
IEEE special values `+Infinity`, `-Infinity`, `NaN`.  Finite arithmetic is
exact; the special values follow IEEE-754 propagation, which is what the
empty-box sentinel `[+inf,+inf,+inf,-inf,-inf,-inf]` exercises. -/
inductive JSNum where
  | fin : ℚ → JSNum
  | pinf : JSNum
  | ninf : JSNum
  | nan : JSNum
deriving DecidableEq

namespace JSNum

/-- IEEE strict less-than: false whenever an operand is `NaN`. -/
def blt : JSNum → JSNum → Bool
  | fin a, fin b => decide (a < b)
  | fin _, pinf => true
  | fin _, ninf => false
  | fin _, nan => false
  | pinf, _ => false
  | ninf, fin _ => true
  | ninf, pinf => true
  | ninf, ninf => false
  | ninf, nan => false
  | nan, _ => false

/-- IEEE less-or-equal: false whenever an operand is `NaN`. -/
def ble : JSNum → JSNum → Bool
  | fin a, fin b => decide (a ≤ b)
  | fin _, pinf => true
  | fin _, ninf => false
  | fin _, nan => false
  | pinf, pinf => true
  | pinf, _ => false
  | ninf, nan => false
  | ninf, _ => true
  | nan, _ => false

/-- JavaScript `a > b`. -/
def bgt (a b : JSNum) : Bool := blt b a

/-- JavaScript `a >= b`. -/
def bge (a b : JSNum) : Bool := ble b a

/-- IEEE negation. -/
def neg : JSNum → JSNum
  | fin a => fin (-a)
  | pinf => ninf
  | ninf => pinf
  | nan => nan

/-- IEEE addition: `NaN` propagates and `(+inf) + (-inf) = NaN`. -/
def add : JSNum → JSNum → JSNum
  | nan, _ => nan
  | _, nan => nan
  | pinf, ninf => nan
  | ninf, pinf => nan
  | pinf, _ => pinf
  | _, pinf => pinf
  | ninf, _ => ninf
  | _, ninf => ninf
  | fin a, fin b => fin (a + b)

/-- IEEE subtraction, `a - b = a + (-b)`. -/
def sub (a b : JSNum) : JSNum := add a (neg b)

/-- IEEE multiplication: `NaN` propagates and `0 * (+-inf) = NaN`. -/
def mul : JSNum → JSNum → JSNum
  | nan, _ => nan
  | _, nan => nan
  | fin a, fin b => fin (a * b)
  | fin a, pinf => if 0 < a then pinf else if a < 0 then ninf else nan
  | fin a, ninf => if 0 < a then ninf else if a < 0 then pinf else nan
  | pinf, fin b => if 0 < b then pinf else if b < 0 then ninf else nan
  | ninf, fin b => if 0 < b then ninf else if b < 0 then pinf else nan
  | pinf, pinf => pinf
  | pinf, ninf => ninf
  | ninf, pinf => ninf
  | ninf, ninf => pinf

/-- JavaScript `Math.abs`. -/
def jabs : JSNum → JSNum
  | fin a => fin |a|
  | pinf => pinf
  | ninf => pinf
  | nan => nan

/-- A finite (neither infinite nor `NaN`) value. -/
def isFin : JSNum → Bool
  | fin _ => true
  | _ => false

end JSNum

/- The floating-point model of the `box3` module: the same source functions
as the `box3` namespace above, read over `JSNum` so that the empty-box
sentinel's infinities are represented faithfully. -/
namespace box3f

open JSNum

/-- The empty box produced by `box3.create` / `box3.empty`:
min at `+Infinity`, max at `-Infinity`. -/
def createEmpty : Box3 JSNum := ⟨pinf, pinf, pinf, ninf, ninf, ninf⟩

/-- All six scalars of a box are finite. -/
def finiteBox (box : Box3 JSNum) : Prop :=
  box.minX.isFin = true ∧ box.minY.isFin = true ∧ box.minZ.isFin = true ∧
  box.maxX.isFin = true ∧ box.maxY.isFin = true ∧ box.maxZ.isFin = true

/-- `box3.containsPoint` over JavaScript numbers. -/
def containsPoint (box : Box3 JSNum) (point : Vec3 JSNum) : Bool :=
  bge point.x box.minX && ble point.x box.maxX &&
  bge point.y box.minY && ble point.y box.maxY &&
  bge point.z box.minZ && ble point.z box.maxZ

/-- `box3.containsBox3` over JavaScript numbers. -/
def containsBox3 (container contained : Box3 JSNum) : Bool :=
  bge contained.minX container.minX && ble contained.maxX container.maxX &&
  bge contained.minY container.minY && ble contained.maxY container.maxY &&
  bge contained.minZ container.minZ && ble contained.maxZ container.maxZ

/-- `box3.intersectsBox3` over JavaScript numbers. -/
def intersectsBox3 (boxA boxB : Box3 JSNum) : Bool :=
  ble boxA.minX boxB.maxX && bge boxA.maxX boxB.minX &&
  ble boxA.minY boxB.maxY && bge boxA.maxY boxB.minY &&
  ble boxA.minZ boxB.maxZ && bge boxA.maxZ boxB.minZ

/-- `_satForAxes` over JavaScript numbers. -/
def satForAxes (extents v0 v1 v2 : Vec3 JSNum) : List (Vec3 JSNum) → Bool
  | [] => true
  | ax :: rest =>
    if ax.x = fin 0 ∧ ax.y = fin 0 ∧ ax.z = fin 0 then satForAxes extents v0 v1 v2 rest
    else
      let p0 := add (add (mul v0.x ax.x) (mul v0.y ax.y)) (mul v0.z ax.z)
      let p1 := add (add (mul v1.x ax.x) (mul v1.y ax.y)) (mul v1.z ax.z)
      let p2 := add (add (mul v2.x ax.x) (mul v2.y ax.y)) (mul v2.z ax.z)
      let mm1 : JSNum × JSNum :=
        if blt p1 p0 then (p1, p0) else if bgt p1 p0 then (p0, p1) else (p0, p0)
      let mm2 : JSNum × JSNum :=
        if blt p2 mm1.1 then (p2, mm1.2) else if bgt p2 mm1.2 then (mm1.1, p2) else mm1
      let r := add (add (mul extents.x (jabs ax.x)) (mul extents.y (jabs ax.y)))
        (mul extents.z (jabs ax.z))
      if blt mm2.2 (JSNum.neg r) || bgt mm2.1 r then false
      else satForAxes extents v0 v1 v2 rest

/-- `box3.intersectsTriangle3` over JavaScript numbers. -/
def intersectsTriangle3 (box : Box3 JSNum) (a b c : Vec3 JSNum) : Bool :=
  if bgt box.minX box.maxX || bgt box.minY box.maxY || bgt box.minZ box.maxZ then false
  else
    let half : JSNum := fin (1 / 2)
    let center : Vec3 JSNum :=
      ⟨mul (add box.minX box.maxX) half, mul (add box.minY box.maxY) half,
       mul (add box.minZ box.maxZ) half⟩
    let extents : Vec3 JSNum :=
      ⟨sub box.maxX center.x, sub box.maxY center.y, sub box.maxZ center.z⟩
    let v0 : Vec3 JSNum := ⟨sub a.x center.x, sub a.y center.y, sub a.z center.z⟩
    let v1 : Vec3 JSNum := ⟨sub b.x center.x, sub b.y center.y, sub b.z center.z⟩
    let v2 : Vec3 JSNum := ⟨sub c.x center.x, sub c.y center.y, sub c.z center.z⟩
    let f0 : Vec3 JSNum := ⟨sub v1.x v0.x, sub v1.y v0.y, sub v1.z v0.z⟩
    let f1 : Vec3 JSNum := ⟨sub v2.x v1.x, sub v2.y v1.y, sub v2.z v1.z⟩
    let f2 : Vec3 JSNum := ⟨sub v0.x v2.x, sub v0.y v2.y, sub v0.z v2.z⟩
    let axesCross : List (Vec3 JSNum) :=
      [⟨fin 0, JSNum.neg f0.z, f0.y⟩, ⟨fin 0, JSNum.neg f1.z, f1.y⟩,
       ⟨fin 0, JSNum.neg f2.z, f2.y⟩,
       ⟨f0.z, fin 0, JSNum.neg f0.x⟩, ⟨f1.z, fin 0, JSNum.neg f1.x⟩,
       ⟨f2.z, fin 0, JSNum.neg f2.x⟩,
       ⟨JSNum.neg f0.y, f0.x, fin 0⟩, ⟨JSNum.neg f1.y, f1.x, fin 0⟩,
       ⟨JSNum.neg f2.y, f2.x, fin 0⟩]
    if !(satForAxes extents v0 v1 v2 axesCross) then false
    else if !(satForAxes extents v0 v1 v2
        [⟨fin 1, fin 0, fin 0⟩, ⟨fin 0, fin 1, fin 0⟩, ⟨fin 0, fin 0, fin 1⟩]) then false
    else
      let n : Vec3 JSNum :=
        ⟨sub (mul f0.y f1.z) (mul f0.z f1.y), sub (mul f0.z f1.x) (mul f0.x f1.z),
         sub (mul f0.x f1.y) (mul f0.y f1.x)⟩
      satForAxes extents v0 v1 v2 [n]

/-- `box3.intersectsSphere` over JavaScript numbers: clamp the center to the
box, then compare squared distance against squared radius. -/
def intersectsSphere (box : Box3 JSNum) (sphere : Sphere JSNum) : Bool :=
  let cx := sphere.center.x
  let cy := sphere.center.y
  let cz := sphere.center.z
  let px := if blt cx box.minX then box.minX else if bgt cx box.maxX then box.maxX else cx
  let py := if blt cy box.minY then box.minY else if bgt cy box.maxY then box.maxY else cy
  let pz := if blt cz box.minZ then box.minZ else if bgt cz box.maxZ then box.maxZ else cz
  let dx := sub px cx
  let dy := sub py cy
  let dz := sub pz cz
  ble (add (add (mul dx dx) (mul dy dy)) (mul dz dz)) (mul sphere.radius sphere.radius)

/-- `box3.intersectsPlane3` over JavaScript numbers: extreme-point signed
distances along the plane normal, intersecting when the interval
`[minDot + constant, maxDot + constant]` straddles zero. -/
def intersectsPlane3 (box : Box3 JSNum) (plane : Plane3 JSNum) : Bool :=
  let n := plane.normal
  let minDotX := cond (bgt n.x (fin 0)) (mul n.x box.minX) (mul n.x box.maxX)
  let maxDotX := cond (bgt n.x (fin 0)) (mul n.x box.maxX) (mul n.x box.minX)
  let minDotY := cond (bgt n.y (fin 0)) (mul n.y box.minY) (mul n.y box.maxY)
  let maxDotY := cond (bgt n.y (fin 0)) (mul n.y box.maxY) (mul n.y box.minY)
  let minDotZ := cond (bgt n.z (fin 0)) (mul n.z box.minZ) (mul n.z box.maxZ)
  let maxDotZ := cond (bgt n.z (fin 0)) (mul n.z box.maxZ) (mul n.z box.minZ)
  let minDot := add (add minDotX minDotY) minDotZ
  let maxDot := add (add maxDotX maxDotY) maxDotZ
  ble (add minDot plane.constant) (fin 0) && bge (add maxDot plane.constant) (fin 0)

/-- All scalars of a sphere are finite. -/
def finiteSphere (s : Sphere JSNum) : Prop :=
  s.center.x.isFin = true ∧ s.center.y.isFin = true ∧ s.center.z.isFin = true ∧
  s.radius.isFin = true

end box3f

section Lemmas

open JSNum

lemma ble_pinf_left {a : JSNum} (h : a.isFin = true) : ble pinf a = false := by
  cases a <;> simp_all [ble, isFin]

lemma ble_ninf_right {a : JSNum} (h : a.isFin = true) : ble a ninf = false := by
  cases a <;> simp_all [ble, isFin]

lemma planeTerm_pinf_or_nan (n : JSNum) :
    cond (bgt n (fin 0)) (mul n pinf) (mul n ninf) = pinf ∨
    cond (bgt n (fin 0)) (mul n pinf) (mul n ninf) = nan := by
  cases n with
  | fin q =>
    rcases lt_trichotomy q 0 with h | h | h
    · simp [bgt, blt, mul, not_lt_of_gt h, h]
    · simp [bgt, blt, mul, h]
    · simp [bgt, blt, mul, h]
  | pinf => simp [bgt, blt, mul]
  | ninf => simp [bgt, blt, mul]
  | nan => simp [bgt, blt, mul]

lemma add_pinf_or_nan {a b : JSNum} (ha : a = pinf ∨ a = nan) (hb : b = pinf ∨ b = nan) :
    add a b = pinf ∨ add a b = nan := by
  rcases ha with ha | ha <;> rcases hb with hb | hb <;> subst ha <;> subst hb <;> simp [add]

lemma add_any_pinf_or_nan {a : JSNum} (ha : a = pinf ∨ a = nan) (c : JSNum) :
    add a c = pinf ∨ add a c = nan := by
  rcases ha with ha | ha <;> subst ha <;> cases c <;> simp [add]

lemma ble_fin0_of_pinf_or_nan {a : JSNum} (ha : a = pinf ∨ a = nan) :
    ble a (fin 0) = false := by
  rcases ha with ha | ha <;> subst ha <;> simp [ble]

lemma isFin_iff {a : JSNum} : a.isFin = true ↔ ∃ q : ℚ, a = fin q := by
  cases a <;> simp [isFin]

lemma satForAxes_zero_cons {K : Type} [LinearOrderedField K] (e v0 v1 v2 : Vec3 K)
    (rest : List (Vec3 K)) :
    box3.satForAxes e v0 v1 v2 (⟨0, 0, 0⟩ :: rest) = box3.satForAxes e v0 v1 v2 rest := by
  simp [box3.satForAxes]

/-- On the three box face normals, the SAT pass over a one-point triangle
reduces to the componentwise interval test against the half-extents. -/
lemma satForAxes_face {K : Type} [LinearOrderedField K] (e v : Vec3 K) :
    box3.satForAxes e v v v [⟨1, 0, 0⟩, ⟨0, 1, 0⟩, ⟨0, 0, 1⟩] =
      (decide (-e.x ≤ v.x) && decide (v.x ≤ e.x) &&
       (decide (-e.y ≤ v.y) && decide (v.y ≤ e.y)) &&
       (decide (-e.z ≤ v.z) && decide (v.z ≤ e.z))) := by
  simp only [box3.satForAxes]
  norm_num
  simp only [← decide_not, not_lt, Bool.and_assoc]

/-- Bounds of `outer` are at least as wide as those of `inner`. -/
def boxWidens {K : Type} [LinearOrderedField K] (outer inner : Box3 K) : Prop :=
  outer.minX ≤ inner.minX ∧ outer.minY ≤ inner.minY ∧ outer.minZ ≤ inner.minZ ∧
  inner.maxX ≤ outer.maxX ∧ inner.maxY ≤ outer.maxY ∧ inner.maxZ ≤ outer.maxZ

lemma boxWidens_refl {K : Type} [LinearOrderedField K] (b : Box3 K) : boxWidens b b :=
  ⟨le_refl _, le_refl _, le_refl _, le_refl _, le_refl _, le_refl _⟩

lemma boxWidens_trans {K : Type} [LinearOrderedField K] {a b c : Box3 K}
    (h1 : boxWidens a b) (h2 : boxWidens b c) : boxWidens a c := by
  obtain ⟨p1, p2, p3, p4, p5, p6⟩ := h1
  obtain ⟨q1, q2, q3, q4, q5, q6⟩ := h2
  exact ⟨le_trans p1 q1, le_trans p2 q2, le_trans p3 q3,
    le_trans q4 p4, le_trans q5 p5, le_trans q6 p6⟩

lemma expandCorner_boxWidens {K : Type} [LinearOrderedField K] (acc : Box3 K) (p : Vec3 K) :
    boxWidens (box3.expandCorner acc p) acc := by
  refine ⟨?_, ?_, ?_, ?_, ?_, ?_⟩ <;> simp only [box3.expandCorner] <;> split_ifs <;> linarith

lemma expandCorner_covers {K : Type} [LinearOrderedField K] (acc : Box3 K) (p : Vec3 K) :
    (box3.expandCorner acc p).minX ≤ p.x ∧ p.x ≤ (box3.expandCorner acc p).maxX ∧
    (box3.expandCorner acc p).minY ≤ p.y ∧ p.y ≤ (box3.expandCorner acc p).maxY ∧
    (box3.expandCorner acc p).minZ ≤ p.z ∧ p.z ≤ (box3.expandCorner acc p).maxZ := by
  refine ⟨?_, ?_, ?_, ?_, ?_, ?_⟩ <;> simp only [box3.expandCorner] <;> split_ifs <;> linarith

lemma foldl_expandCorner_boxWidens {K : Type} [LinearOrderedField K]
    (l : List (Vec3 K)) (acc : Box3 K) :
    boxWidens (l.foldl box3.expandCorner acc) acc := by
  induction l generalizing acc with
  | nil => exact boxWidens_refl acc
  | cons p rest ih =>
    exact boxWidens_trans (ih (box3.expandCorner acc p)) (expandCorner_boxWidens acc p)

lemma containsPoint_of_boxWidens {K : Type} [LinearOrderedField K]
    {outer inner : Box3 K} {p : Vec3 K} (hw : boxWidens outer inner)
    (hc : inner.minX ≤ p.x ∧ p.x ≤ inner.maxX ∧ inner.minY ≤ p.y ∧ p.y ≤ inner.maxY ∧
      inner.minZ ≤ p.z ∧ p.z ≤ inner.maxZ) :
    box3.containsPoint outer p = true := by
  obtain ⟨w1, w2, w3, w4, w5, w6⟩ := hw
  obtain ⟨c1, c2, c3, c4, c5, c6⟩ := hc
  simp only [box3.containsPoint, Bool.and_eq_true, decide_eq_true_eq, ge_iff_le]
  refine ⟨⟨⟨⟨⟨?_, ?_⟩, ?_⟩, ?_⟩, ?_⟩, ?_⟩ <;> linarith

lemma foldl_expandCorner_covers {K : Type} [LinearOrderedField K]
    (l : List (Vec3 K)) (acc : Box3 K) (p : Vec3 K) (hp : p ∈ l) :
    box3.containsPoint (l.foldl box3.expandCorner acc) p = true := by
  induction l generalizing acc with
  | nil => cases hp
  | cons q rest ih =>
    rw [List.foldl_cons]
    rcases List.mem_cons.mp hp with h | h
    · subst h
      exact containsPoint_of_boxWidens
        (foldl_expandCorner_boxWidens rest (box3.expandCorner acc p))
        (expandCorner_covers acc p)
    · exact ih (box3.expandCorner acc q) h

set_option maxHeartbeats 1000000 in
/-- Every execution path of the ray-triangle test either reports a hit or
produces exactly the all-reset miss record. -/
lemma intersectsTriangle_hit_or_miss {K : Type} [LinearOrderedField K]
    (ray : Raycast3 K) (a b c : Vec3 K) (culling : Bool) :
    (raycast3.intersectsTriangle ray a b c culling).hit = true ∨
    raycast3.intersectsTriangle ray a b c culling = raycast3.missResult := by
  unfold raycast3.intersectsTriangle
  dsimp only
  split_ifs <;> simp [raycast3.missResult]

open obb3 in
lemma orthonormal_rows {M : Mat3 K} (h : Orthonormal M) :
    (M.m0 * M.m0 + M.m3 * M.m3 + M.m6 * M.m6 = 1) ∧
    (M.m0 * M.m1 + M.m3 * M.m4 + M.m6 * M.m7 = 0) ∧
    (M.m0 * M.m2 + M.m3 * M.m5 + M.m6 * M.m8 = 0) ∧
    (M.m1 * M.m1 + M.m4 * M.m4 + M.m7 * M.m7 = 1) ∧
    (M.m1 * M.m2 + M.m4 * M.m5 + M.m7 * M.m8 = 0) ∧
    (M.m2 * M.m2 + M.m5 * M.m5 + M.m8 * M.m8 = 1) := by
  obtain ⟨h1, h2, h3, h4, h5, h6⟩ := h
  simp only [vec3.dot, mat3.col0, mat3.col1, mat3.col2] at h1 h2 h3 h4 h5 h6
  have hcol : (Matrix.of ![![M.m0, M.m1, M.m2], ![M.m3, M.m4, M.m5], ![M.m6, M.m7, M.m8]]) *
      (Matrix.of ![![M.m0, M.m3, M.m6], ![M.m1, M.m4, M.m7], ![M.m2, M.m5, M.m8]]) = 1 := by
    ext i j
    fin_cases i <;> fin_cases j <;>
      simp [Matrix.mul_apply, Fin.sum_univ_three, Matrix.one_apply] <;> linarith
  have hrow := Matrix.mul_eq_one_comm.mp hcol
  have hentry : ∀ i j,
      ((Matrix.of ![![M.m0, M.m3, M.m6], ![M.m1, M.m4, M.m7], ![M.m2, M.m5, M.m8]]) *
        (Matrix.of ![![M.m0, M.m1, M.m2], ![M.m3, M.m4, M.m5], ![M.m6, M.m7, M.m8]])) i j =
      (1 : Matrix (Fin 3) (Fin 3) K) i j := by
    intro i j
    rw [hrow]
  have e00 := hentry 0 0
  have e01 := hentry 0 1
  have e02 := hentry 0 2
  have e11 := hentry 1 1
  have e12 := hentry 1 2
  have e22 := hentry 2 2
  simp [Matrix.mul_apply, Fin.sum_univ_three, Matrix.one_apply] at e00 e01 e02 e11 e12 e22
  refine ⟨by linarith, by linarith, by linarith, by linarith, by linarith, by linarith⟩

open obb3 in
lemma complete_x {M : Mat3 K} (h : Orthonormal M) (w : Vec3 K) :
    vec3.dot w (mat3.col0 M) * M.m0 + vec3.dot w (mat3.col1 M) * M.m3 +
      vec3.dot w (mat3.col2 M) * M.m6 = w.x := by
  obtain ⟨r1, r2, r3, r4, r5, r6⟩ := orthonormal_rows h
  simp only [vec3.dot, mat3.col0, mat3.col1, mat3.col2]
  linear_combination w.x * r1 + w.y * r2 + w.z * r3

open obb3 in
lemma complete_y {M : Mat3 K} (h : Orthonormal M) (w : Vec3 K) :
    vec3.dot w (mat3.col0 M) * M.m1 + vec3.dot w (mat3.col1 M) * M.m4 +
      vec3.dot w (mat3.col2 M) * M.m7 = w.y := by
  obtain ⟨r1, r2, r3, r4, r5, r6⟩ := orthonormal_rows h
  simp only [vec3.dot, mat3.col0, mat3.col1, mat3.col2]
  linear_combination w.x * r2 + w.y * r4 + w.z * r5

open obb3 in
lemma complete_z {M : Mat3 K} (h : Orthonormal M) (w : Vec3 K) :
    vec3.dot w (mat3.col0 M) * M.m2 + vec3.dot w (mat3.col1 M) * M.m5 +
      vec3.dot w (mat3.col2 M) * M.m8 = w.z := by
  obtain ⟨r1, r2, r3, r4, r5, r6⟩ := orthonormal_rows h
  simp only [vec3.dot, mat3.col0, mat3.col1, mat3.col2]
  linear_combination w.x * r3 + w.y * r5 + w.z * r6

open obb3 in
lemma dot_expand {M : Mat3 K} (h : Orthonormal M) (s v : Vec3 K) :
    vec3.dot s v =
      vec3.dot s (mat3.col0 M) * vec3.dot (mat3.col0 M) v +
      vec3.dot s (mat3.col1 M) * vec3.dot (mat3.col1 M) v +
      vec3.dot s (mat3.col2 M) * vec3.dot (mat3.col2 M) v := by
  have hx := complete_x h s
  have hy := complete_y h s
  have hz := complete_z h s
  simp only [vec3.dot, mat3.col0, mat3.col1, mat3.col2] at *
  linear_combination (-v.x) * hx + (-v.y) * hy + (-v.z) * hz

open obb3 in
lemma dot_cross01 {M : Mat3 K} (h : Orthonormal M) (v : Vec3 K) :
    vec3.dot (vec3.cross (mat3.col0 M) (mat3.col1 M)) v = det3 M * vec3.dot (mat3.col2 M) v := by
  have he := dot_expand h (vec3.cross (mat3.col0 M) (mat3.col1 M)) v
  have d0 : vec3.dot (vec3.cross (mat3.col0 M) (mat3.col1 M)) (mat3.col0 M) = 0 := by
    simp only [vec3.dot, vec3.cross, mat3.col0, mat3.col1]
    ring
  have d1 : vec3.dot (vec3.cross (mat3.col0 M) (mat3.col1 M)) (mat3.col1 M) = 0 := by
    simp only [vec3.dot, vec3.cross, mat3.col0, mat3.col1]
    ring
  have d2 : vec3.dot (vec3.cross (mat3.col0 M) (mat3.col1 M)) (mat3.col2 M) = det3 M := by
    simp only [vec3.dot, vec3.cross, mat3.col0, mat3.col1, mat3.col2, det3]
    ring
  rw [he, d0, d1, d2]
  ring

open obb3 in
lemma dot_cross12 {M : Mat3 K} (h : Orthonormal M) (v : Vec3 K) :
    vec3.dot (vec3.cross (mat3.col1 M) (mat3.col2 M)) v = det3 M * vec3.dot (mat3.col0 M) v := by
  have he := dot_expand h (vec3.cross (mat3.col1 M) (mat3.col2 M)) v
  have d0 : vec3.dot (vec3.cross (mat3.col1 M) (mat3.col2 M)) (mat3.col0 M) = det3 M := by
    simp only [vec3.dot, vec3.cross, mat3.col0, mat3.col1, mat3.col2, det3]
    ring
  have d1 : vec3.dot (vec3.cross (mat3.col1 M) (mat3.col2 M)) (mat3.col1 M) = 0 := by
    simp only [vec3.dot, vec3.cross, mat3.col1, mat3.col2]
    ring
  have d2 : vec3.dot (vec3.cross (mat3.col1 M) (mat3.col2 M)) (mat3.col2 M) = 0 := by
    simp only [vec3.dot, vec3.cross, mat3.col1, mat3.col2]
    ring
  rw [he, d0, d1, d2]
  ring

open obb3 in
lemma dot_cross20 {M : Mat3 K} (h : Orthonormal M) (v : Vec3 K) :
    vec3.dot (vec3.cross (mat3.col2 M) (mat3.col0 M)) v = det3 M * vec3.dot (mat3.col1 M) v := by
  have he := dot_expand h (vec3.cross (mat3.col2 M) (mat3.col0 M)) v
  have d0 : vec3.dot (vec3.cross (mat3.col2 M) (mat3.col0 M)) (mat3.col0 M) = 0 := by
    simp only [vec3.dot, vec3.cross, mat3.col0, mat3.col2]
    ring
  have d1 : vec3.dot (vec3.cross (mat3.col2 M) (mat3.col0 M)) (mat3.col1 M) = det3 M := by
    simp only [vec3.dot, vec3.cross, mat3.col0, mat3.col1, mat3.col2, det3]
    ring
  have d2 : vec3.dot (vec3.cross (mat3.col2 M) (mat3.col0 M)) (mat3.col2 M) = 0 := by
    simp only [vec3.dot, vec3.cross, mat3.col0, mat3.col2]
    ring
  rw [he, d0, d1, d2]
  ring

open obb3 in
lemma det3_sq {M : Mat3 K} (h : Orthonormal M) : det3 M ^ 2 = 1 := by
  have hXX := dot_cross01 h (vec3.cross (mat3.col0 M) (mat3.col1 M))
  obtain ⟨h1, h2, h3, h4, h5, h6⟩ := h
  have hd2 : vec3.dot (mat3.col2 M) (vec3.cross (mat3.col0 M) (mat3.col1 M)) = det3 M := by
    simp only [vec3.dot, vec3.cross, mat3.col0, mat3.col1, mat3.col2, det3]
    ring
  rw [hd2] at hXX
  have hlag : vec3.dot (vec3.cross (mat3.col0 M) (mat3.col1 M))
      (vec3.cross (mat3.col0 M) (mat3.col1 M)) =
      vec3.dot (mat3.col0 M) (mat3.col0 M) * vec3.dot (mat3.col1 M) (mat3.col1 M) -
      vec3.dot (mat3.col0 M) (mat3.col1 M) ^ 2 := by
    simp only [vec3.dot, vec3.cross, mat3.col0, mat3.col1]
    ring
  rw [hXX, h1, h4, h2] at hlag
  linear_combination hlag

open obb3 in
lemma abs_det3 {M : Mat3 K} (h : Orthonormal M) : |det3 M| = 1 := by
  have hsq := det3_sq h
  have hfac : (det3 M - 1) * (det3 M + 1) = 0 := by linear_combination hsq
  rcases mul_eq_zero.mp hfac with hc | hc
  · have : det3 M = 1 := by linarith
    rw [this]
    exact abs_one
  · have : det3 M = -1 := by linarith
    rw [this]
    simp

open obb3 in
lemma key_cross0 {M : Mat3 K} (h : Orthonormal M) (t v : Vec3 K) :
    vec3.dot t (vec3.cross (mat3.col0 M) v) =
      det3 M * (vec3.dot t (mat3.col2 M) * vec3.dot (mat3.col1 M) v -
        vec3.dot t (mat3.col1 M) * vec3.dot (mat3.col2 M) v) := by
  have htri : vec3.dot t (vec3.cross (mat3.col0 M) v) =
      vec3.dot (vec3.cross t (mat3.col0 M)) v := by
    simp only [vec3.dot, vec3.cross]
    ring
  have he := dot_expand h (vec3.cross t (mat3.col0 M)) v
  have sc0 : vec3.dot (vec3.cross t (mat3.col0 M)) (mat3.col0 M) = 0 := by
    simp only [vec3.dot, vec3.cross]
    ring
  have sc1 : vec3.dot (vec3.cross t (mat3.col0 M)) (mat3.col1 M) =
      det3 M * vec3.dot t (mat3.col2 M) := by
    have hh : vec3.dot (vec3.cross t (mat3.col0 M)) (mat3.col1 M) =
        vec3.dot (vec3.cross (mat3.col0 M) (mat3.col1 M)) t := by
      simp only [vec3.dot, vec3.cross]
      ring
    rw [hh, dot_cross01 h t]
    have : vec3.dot (mat3.col2 M) t = vec3.dot t (mat3.col2 M) := by
      simp only [vec3.dot]
      ring
    rw [this]
  have sc2 : vec3.dot (vec3.cross t (mat3.col0 M)) (mat3.col2 M) =
      -(det3 M * vec3.dot t (mat3.col1 M)) := by
    have hh : vec3.dot (vec3.cross t (mat3.col0 M)) (mat3.col2 M) =
        -vec3.dot (vec3.cross (mat3.col2 M) (mat3.col0 M)) t := by
      simp only [vec3.dot, vec3.cross]
      ring
    rw [hh, dot_cross20 h t]
    have : vec3.dot (mat3.col1 M) t = vec3.dot t (mat3.col1 M) := by
      simp only [vec3.dot]
      ring
    rw [this]
  rw [htri, he, sc0, sc1, sc2]
  ring

open obb3 in
lemma key_cross1 {M : Mat3 K} (h : Orthonormal M) (t v : Vec3 K) :
    vec3.dot t (vec3.cross (mat3.col1 M) v) =
      det3 M * (vec3.dot t (mat3.col0 M) * vec3.dot (mat3.col2 M) v -
        vec3.dot t (mat3.col2 M) * vec3.dot (mat3.col0 M) v) := by
  have htri : vec3.dot t (vec3.cross (mat3.col1 M) v) =
      vec3.dot (vec3.cross t (mat3.col1 M)) v := by
    simp only [vec3.dot, vec3.cross]
    ring
  have he := dot_expand h (vec3.cross t (mat3.col1 M)) v
  have sc0 : vec3.dot (vec3.cross t (mat3.col1 M)) (mat3.col0 M) =
      -(det3 M * vec3.dot t (mat3.col2 M)) := by
    have hh : vec3.dot (vec3.cross t (mat3.col1 M)) (mat3.col0 M) =
        -vec3.dot (vec3.cross (mat3.col0 M) (mat3.col1 M)) t := by
      simp only [vec3.dot, vec3.cross]
      ring
    rw [hh, dot_cross01 h t]
    have : vec3.dot (mat3.col2 M) t = vec3.dot t (mat3.col2 M) := by
      simp only [vec3.dot]
      ring
    rw [this]
  have sc1 : vec3.dot (vec3.cross t (mat3.col1 M)) (mat3.col1 M) = 0 := by
    simp only [vec3.dot, vec3.cross]
    ring
  have sc2 : vec3.dot (vec3.cross t (mat3.col1 M)) (mat3.col2 M) =
      det3 M * vec3.dot t (mat3.col0 M) := by
    have hh : vec3.dot (vec3.cross t (mat3.col1 M)) (mat3.col2 M) =
        vec3.dot (vec3.cross (mat3.col1 M) (mat3.col2 M)) t := by
      simp only [vec3.dot, vec3.cross]
      ring
    rw [hh, dot_cross12 h t]
    have : vec3.dot (mat3.col0 M) t = vec3.dot t (mat3.col0 M) := by
      simp only [vec3.dot]
      ring
    rw [this]
  rw [htri, he, sc0, sc1, sc2]
  ring

open obb3 in
lemma key_cross2 {M : Mat3 K} (h : Orthonormal M) (t v : Vec3 K) :
    vec3.dot t (vec3.cross (mat3.col2 M) v) =
      det3 M * (vec3.dot t (mat3.col1 M) * vec3.dot (mat3.col0 M) v -
        vec3.dot t (mat3.col0 M) * vec3.dot (mat3.col1 M) v) := by
  have htri : vec3.dot t (vec3.cross (mat3.col2 M) v) =
      vec3.dot (vec3.cross t (mat3.col2 M)) v := by
    simp only [vec3.dot, vec3.cross]
    ring
  have he := dot_expand h (vec3.cross t (mat3.col2 M)) v
  have sc0 : vec3.dot (vec3.cross t (mat3.col2 M)) (mat3.col0 M) =
      det3 M * vec3.dot t (mat3.col1 M) := by
    have hh : vec3.dot (vec3.cross t (mat3.col2 M)) (mat3.col0 M) =
        vec3.dot (vec3.cross (mat3.col2 M) (mat3.col0 M)) t := by
      simp only [vec3.dot, vec3.cross]
      ring
    rw [hh, dot_cross20 h t]
    have : vec3.dot (mat3.col1 M) t = vec3.dot t (mat3.col1 M) := by
      simp only [vec3.dot]
      ring
    rw [this]
  have sc1 : vec3.dot (vec3.cross t (mat3.col2 M)) (mat3.col1 M) =
      -(det3 M * vec3.dot t (mat3.col0 M)) := by
    have hh : vec3.dot (vec3.cross t (mat3.col2 M)) (mat3.col1 M) =
        -vec3.dot (vec3.cross (mat3.col1 M) (mat3.col2 M)) t := by
      simp only [vec3.dot, vec3.cross]
      ring
    rw [hh, dot_cross12 h t]
    have : vec3.dot (mat3.col0 M) t = vec3.dot t (mat3.col0 M) := by
      simp only [vec3.dot]
      ring
    rw [this]
  have sc2 : vec3.dot (vec3.cross t (mat3.col2 M)) (mat3.col2 M) = 0 := by
    simp only [vec3.dot, vec3.cross]
    ring
  rw [htri, he, sc0, sc1, sc2]
  ring

open obb3 in
lemma absE0 {M : Mat3 K} (h : Orthonormal M) (t v : Vec3 K) :
    |vec3.dot t (mat3.col2 M) * vec3.dot (mat3.col1 M) v -
      vec3.dot t (mat3.col1 M) * vec3.dot (mat3.col2 M) v| =
    |vec3.dot t (vec3.cross (mat3.col0 M) v)| := by
  rw [key_cross0 h t v, abs_mul, abs_det3 h, one_mul]

open obb3 in
lemma absE1 {M : Mat3 K} (h : Orthonormal M) (t v : Vec3 K) :
    |vec3.dot t (mat3.col0 M) * vec3.dot (mat3.col2 M) v -
      vec3.dot t (mat3.col2 M) * vec3.dot (mat3.col0 M) v| =
    |vec3.dot t (vec3.cross (mat3.col1 M) v)| := by
  rw [key_cross1 h t v, abs_mul, abs_det3 h, one_mul]

open obb3 in
lemma absE2 {M : Mat3 K} (h : Orthonormal M) (t v : Vec3 K) :
    |vec3.dot t (mat3.col1 M) * vec3.dot (mat3.col0 M) v -
      vec3.dot t (mat3.col0 M) * vec3.dot (mat3.col1 M) v| =
    |vec3.dot t (vec3.cross (mat3.col2 M) v)| := by
  rw [key_cross2 h t v, abs_mul, abs_det3 h, one_mul]

open obb3 in
lemma intersectsOBB3_iff (a b : OBB3 K) (e : K) :
    intersectsOBB3 a b e = true ↔
    (¬(a.halfExtents.x + (b.halfExtents.x * (|R00 a b| + e) + b.halfExtents.y * (|R01 a b| + e) +
        b.halfExtents.z * (|R02 a b| + e)) < |tA0 a b|) ∧
     ¬(a.halfExtents.y + (b.halfExtents.x * (|R10 a b| + e) + b.halfExtents.y * (|R11 a b| + e) +
        b.halfExtents.z * (|R12 a b| + e)) < |tA1 a b|) ∧
     ¬(a.halfExtents.z + (b.halfExtents.x * (|R20 a b| + e) + b.halfExtents.y * (|R21 a b| + e) +
        b.halfExtents.z * (|R22 a b| + e)) < |tA2 a b|) ∧
     ¬(a.halfExtents.x * (|R00 a b| + e) + a.halfExtents.y * (|R10 a b| + e) +
        a.halfExtents.z * (|R20 a b| + e) + b.halfExtents.x <
        |tA0 a b * R00 a b + tA1 a b * R10 a b + tA2 a b * R20 a b|) ∧
     ¬(a.halfExtents.x * (|R01 a b| + e) + a.halfExtents.y * (|R11 a b| + e) +
        a.halfExtents.z * (|R21 a b| + e) + b.halfExtents.y <
        |tA0 a b * R01 a b + tA1 a b * R11 a b + tA2 a b * R21 a b|) ∧
     ¬(a.halfExtents.x * (|R02 a b| + e) + a.halfExtents.y * (|R12 a b| + e) +
        a.halfExtents.z * (|R22 a b| + e) + b.halfExtents.z <
        |tA0 a b * R02 a b + tA1 a b * R12 a b + tA2 a b * R22 a b|) ∧
     ¬(a.halfExtents.y * (|R20 a b| + e) + a.halfExtents.z * (|R10 a b| + e) +
        (b.halfExtents.y * (|R02 a b| + e) + b.halfExtents.z * (|R01 a b| + e)) <
        |tA2 a b * R10 a b - tA1 a b * R20 a b|) ∧
     ¬(a.halfExtents.y * (|R21 a b| + e) + a.halfExtents.z * (|R11 a b| + e) +
        (b.halfExtents.x * (|R02 a b| + e) + b.halfExtents.z * (|R00 a b| + e)) <
        |tA2 a b * R11 a b - tA1 a b * R21 a b|) ∧
     ¬(a.halfExtents.y * (|R22 a b| + e) + a.halfExtents.z * (|R12 a b| + e) +
        (b.halfExtents.x * (|R01 a b| + e) + b.halfExtents.y * (|R00 a b| + e)) <
        |tA2 a b * R12 a b - tA1 a b * R22 a b|) ∧
     ¬(a.halfExtents.x * (|R20 a b| + e) + a.halfExtents.z * (|R00 a b| + e) +
        (b.halfExtents.y * (|R12 a b| + e) + b.halfExtents.z * (|R11 a b| + e)) <
        |tA0 a b * R20 a b - tA2 a b * R00 a b|) ∧
     ¬(a.halfExtents.x * (|R21 a b| + e) + a.halfExtents.z * (|R01 a b| + e) +
        (b.halfExtents.x * (|R12 a b| + e) + b.halfExtents.z * (|R10 a b| + e)) <
        |tA0 a b * R21 a b - tA2 a b * R01 a b|) ∧
     ¬(a.halfExtents.x * (|R22 a b| + e) + a.halfExtents.z * (|R02 a b| + e) +
        (b.halfExtents.x * (|R11 a b| + e) + b.halfExtents.y * (|R10 a b| + e)) <
        |tA0 a b * R22 a b - tA2 a b * R02 a b|) ∧
     ¬(a.halfExtents.x * (|R10 a b| + e) + a.halfExtents.y * (|R00 a b| + e) +
        (b.halfExtents.y * (|R22 a b| + e) + b.halfExtents.z * (|R21 a b| + e)) <
        |tA1 a b * R00 a b - tA0 a b * R10 a b|) ∧
     ¬(a.halfExtents.x * (|R11 a b| + e) + a.halfExtents.y * (|R01 a b| + e) +
        (b.halfExtents.x * (|R22 a b| + e) + b.halfExtents.z * (|R20 a b| + e)) <
        |tA1 a b * R01 a b - tA0 a b * R11 a b|) ∧
     ¬(a.halfExtents.x * (|R12 a b| + e) + a.halfExtents.y * (|R02 a b| + e) +
        (b.halfExtents.x * (|R21 a b| + e) + b.halfExtents.y * (|R20 a b| + e)) <
        |tA1 a b * R02 a b - tA0 a b * R12 a b|)) := by
  simp only [intersectsOBB3, Bool.and_eq_true, Bool.not_eq_true', decide_eq_false_iff_not,
    and_assoc]

lemma cond_congr {S1 S2 X1 X2 : K} (hS : S1 = S2) (hX : X1 = X2) :
    ¬(S1 < X1) ↔ ¬(S2 < X2) := by
  rw [hS, hX]

end Lemmas

section Theorems

open JSNum

/-- C1: for the ray with origin `(0,0,0)`, direction `(0,0,1)` and length 2
against the box `[-1,-1,2,1,1,4]`, the slab test returns `true`, not `false`
as the claim states: the ray's endpoint `(0,0,2)` lies exactly on the box's
near face and the narrowed interval is `[2,2]`, which is not rejected. -/
theorem c1_ray_aabb_counterexample :
    raycast3.intersectsBox3 (⟨⟨0, 0, 0⟩, ⟨0, 0, 1⟩, 2⟩ : Raycast3 ℚ)
      ⟨-1, -1, 2, 1, 1, 4⟩ = true := by
  norm_num [raycast3.intersectsBox3, raycast3.slabCheck]

/-- C1 (amended): the ray `origin (0,0,0), direction (0,0,1)` against the box
`[-1,-1,2,1,1,4]` hits with length 10; with length 2 it still hits, because the
endpoint touches the near face `z = 2` and boundaries are closed; with any
length strictly below 2 (for instance 1) the box lies beyond the ray's bound
and the test reports a miss. -/
theorem c1_ray_aabb_bounds :
    raycast3.intersectsBox3 (⟨⟨0, 0, 0⟩, ⟨0, 0, 1⟩, 10⟩ : Raycast3 ℚ)
      ⟨-1, -1, 2, 1, 1, 4⟩ = true ∧
    raycast3.intersectsBox3 (⟨⟨0, 0, 0⟩, ⟨0, 0, 1⟩, 2⟩ : Raycast3 ℚ)
      ⟨-1, -1, 2, 1, 1, 4⟩ = true ∧
    raycast3.intersectsBox3 (⟨⟨0, 0, 0⟩, ⟨0, 0, 1⟩, 1⟩ : Raycast3 ℚ)
      ⟨-1, -1, 2, 1, 1, 4⟩ = false := by
  refine ⟨?_, ?_, ?_⟩ <;> norm_num [raycast3.intersectsBox3, raycast3.slabCheck]

/-- C2: the claim that `containsBox3` returns `false` whenever the empty
sentinel box is one of its arguments fails: with the empty box as the
`contained` argument the comparisons `+inf >= min` and `-inf <= max` are all
true, so the unit box is reported as containing the empty box. -/
theorem c2_empty_box_counterexample :
    box3f.containsBox3 ⟨fin 0, fin 0, fin 0, fin 1, fin 1, fin 1⟩
      box3f.createEmpty = true := by
  decide

/-- C2 (amended): against the empty sentinel box
`[+inf,+inf,+inf,-inf,-inf,-inf]`, `containsPoint` rejects every point,
`containsBox3` with the empty box as container rejects every finite box,
`intersectsBox3` (either order), `intersectsTriangle3`, `intersectsSphere`
and `intersectsPlane3` all return `false` (never a hit, and the returned
value is a proper boolean even where `NaN` arises internally); the one
exception is `containsBox3` with the empty box as the `contained` argument,
which returns `true` for every finite container box. -/
theorem c2_empty_box_queries (p : Vec3 JSNum) (b : Box3 JSNum)
    (ta tb tc : Vec3 JSNum) (s : Sphere JSNum) (pl : Plane3 JSNum)
    (hb : box3f.finiteBox b) (hs : box3f.finiteSphere s) :
    box3f.containsPoint box3f.createEmpty p = false ∧
    box3f.containsBox3 box3f.createEmpty b = false ∧
    box3f.containsBox3 b box3f.createEmpty = true ∧
    box3f.intersectsBox3 box3f.createEmpty b = false ∧
    box3f.intersectsBox3 b box3f.createEmpty = false ∧
    box3f.intersectsTriangle3 box3f.createEmpty ta tb tc = false ∧
    box3f.intersectsSphere box3f.createEmpty s = false ∧
    box3f.intersectsPlane3 box3f.createEmpty pl = false := by
  obtain ⟨h1, h2, h3, h4, h5, h6⟩ := hb
  refine ⟨?_, ?_, ?_, ?_, ?_, ?_, ?_, ?_⟩
  · cases hpx : p.x <;>
      simp [box3f.containsPoint, box3f.createEmpty, bge, ble, hpx]
  · simp [box3f.containsBox3, box3f.createEmpty, bge, ble_pinf_left h1]
  · rw [isFin_iff] at h1 h2 h3 h4 h5 h6
    obtain ⟨q1, e1⟩ := h1
    obtain ⟨q2, e2⟩ := h2
    obtain ⟨q3, e3⟩ := h3
    obtain ⟨q4, e4⟩ := h4
    obtain ⟨q5, e5⟩ := h5
    obtain ⟨q6, e6⟩ := h6
    simp [box3f.containsBox3, box3f.createEmpty, bge, ble, e1, e2, e3, e4, e5, e6]
  · simp [box3f.intersectsBox3, box3f.createEmpty, bge, ble_pinf_left h4]
  · simp [box3f.intersectsBox3, box3f.createEmpty, bge, ble_ninf_right h1]
  · simp [box3f.intersectsTriangle3, box3f.createEmpty, bgt, blt]
  · obtain ⟨f1, f2, f3, f4⟩ := hs
    rw [isFin_iff] at f1 f2 f3 f4
    obtain ⟨q1, e1⟩ := f1
    obtain ⟨q2, e2⟩ := f2
    obtain ⟨q3, e3⟩ := f3
    obtain ⟨q4, e4⟩ := f4
    simp [box3f.intersectsSphere, box3f.createEmpty, blt, bgt, ble, sub, add, neg, mul,
      e1, e2, e3, e4]
  · have hx := planeTerm_pinf_or_nan pl.normal.x
    have hy := planeTerm_pinf_or_nan pl.normal.y
    have hz := planeTerm_pinf_or_nan pl.normal.z
    have hsum := add_any_pinf_or_nan (add_pinf_or_nan (add_pinf_or_nan hx hy) hz) pl.constant
    simp only [box3f.intersectsPlane3, box3f.createEmpty]
    rw [ble_fin0_of_pinf_or_nan hsum]
    simp

/-- C2 witness: the amended empty-box theorem applied to concrete finite
arguments (origin point, the unit box, a degenerate triangle at the origin,
the unit sphere and the default plane). -/
theorem c2_empty_box_queries_witness :
    box3f.finiteBox ⟨fin 0, fin 0, fin 0, fin 1, fin 1, fin 1⟩ ∧
    box3f.finiteSphere ⟨⟨fin 0, fin 0, fin 0⟩, fin 1⟩ ∧
    box3f.containsPoint box3f.createEmpty ⟨fin 0, fin 0, fin 0⟩ = false ∧
    box3f.intersectsPlane3 box3f.createEmpty ⟨⟨fin 0, fin 1, fin 0⟩, fin 0⟩ = false :=
  have h := c2_empty_box_queries ⟨fin 0, fin 0, fin 0⟩
    ⟨fin 0, fin 0, fin 0, fin 1, fin 1, fin 1⟩ ⟨fin 0, fin 0, fin 0⟩ ⟨fin 0, fin 0, fin 0⟩
    ⟨fin 0, fin 0, fin 0⟩ ⟨⟨fin 0, fin 0, fin 0⟩, fin 1⟩ ⟨⟨fin 0, fin 1, fin 0⟩, fin 0⟩
    ⟨rfl, rfl, rfl, rfl, rfl, rfl⟩ ⟨rfl, rfl, rfl, rfl⟩
  ⟨⟨rfl, rfl, rfl, rfl, rfl, rfl⟩, ⟨rfl, rfl, rfl, rfl⟩, h.1, h.2.2.2.2.2.2.2⟩

/-- C8: whenever the ray direction is orthogonal to the triangle's geometric
normal `(b-a) x (c-a)` - the ray parallel to, or lying in, the triangle's
plane - the ray-triangle test reports no hit, for both values of
`backfaceCulling`. -/
theorem c8_parallel_ray_misses {K : Type} [LinearOrderedField K]
    (ray : Raycast3 K) (a b c : Vec3 K) (culling : Bool)
    (h : vec3.dot ray.direction (vec3.cross (vec3.sub b a) (vec3.sub c a)) = 0) :
    (raycast3.intersectsTriangle ray a b c culling).hit = false := by
  simp [raycast3.intersectsTriangle, h, raycast3.missResult]

/-- C8 witness: a concrete ray running parallel to a triangle lying in the
plane `z = 1`, with both culling flags. -/
theorem c8_parallel_ray_misses_witness :
    (vec3.dot (⟨1, 0, 0⟩ : Vec3 ℚ) (vec3.cross (vec3.sub ⟨1, 0, 1⟩ ⟨0, 0, 1⟩)
        (vec3.sub ⟨0, 1, 1⟩ ⟨0, 0, 1⟩)) = 0) ∧
    (raycast3.intersectsTriangle (⟨⟨0, 0, 0⟩, ⟨1, 0, 0⟩, 5⟩ : Raycast3 ℚ)
        ⟨0, 0, 1⟩ ⟨1, 0, 1⟩ ⟨0, 1, 1⟩ true).hit = false ∧
    (raycast3.intersectsTriangle (⟨⟨0, 0, 0⟩, ⟨1, 0, 0⟩, 5⟩ : Raycast3 ℚ)
        ⟨0, 0, 1⟩ ⟨1, 0, 1⟩ ⟨0, 1, 1⟩ false).hit = false :=
  ⟨by norm_num [vec3.dot, vec3.cross, vec3.sub],
   c8_parallel_ray_misses _ _ _ _ true (by norm_num [vec3.dot, vec3.cross, vec3.sub]),
   c8_parallel_ray_misses _ _ _ _ false (by norm_num [vec3.dot, vec3.cross, vec3.sub])⟩

/-- C10: whenever the ray-triangle test reports `hit = false` - through any
of its rejection branches - it also writes `fraction = 0` and
`frontFacing = false`, so every output field is freshly determined by the
call. -/
theorem c10_miss_resets_outputs {K : Type} [LinearOrderedField K]
    (ray : Raycast3 K) (a b c : Vec3 K) (culling : Bool)
    (h : (raycast3.intersectsTriangle ray a b c culling).hit = false) :
    (raycast3.intersectsTriangle ray a b c culling).fraction = 0 ∧
    (raycast3.intersectsTriangle ray a b c culling).frontFacing = false := by
  rcases intersectsTriangle_hit_or_miss ray a b c culling with hcase | hcase
  · rw [hcase] at h
    exact absurd h (by simp)
  · rw [hcase]
    exact ⟨rfl, rfl⟩

/-- C10 witness: a concrete miss (parallel ray), where the output record is
fully reset. -/
theorem c10_miss_resets_outputs_witness :
    (raycast3.intersectsTriangle (⟨⟨0, 0, 0⟩, ⟨1, 0, 0⟩, 5⟩ : Raycast3 ℚ)
        ⟨0, 0, 1⟩ ⟨1, 0, 1⟩ ⟨0, 1, 1⟩ false).hit = false ∧
    (raycast3.intersectsTriangle (⟨⟨0, 0, 0⟩, ⟨1, 0, 0⟩, 5⟩ : Raycast3 ℚ)
        ⟨0, 0, 1⟩ ⟨1, 0, 1⟩ ⟨0, 1, 1⟩ false).fraction = 0 ∧
    (raycast3.intersectsTriangle (⟨⟨0, 0, 0⟩, ⟨1, 0, 0⟩, 5⟩ : Raycast3 ℚ)
        ⟨0, 0, 1⟩ ⟨1, 0, 1⟩ ⟨0, 1, 1⟩ false).frontFacing = false :=
  have hmiss : (raycast3.intersectsTriangle (⟨⟨0, 0, 0⟩, ⟨1, 0, 0⟩, 5⟩ : Raycast3 ℚ)
      ⟨0, 0, 1⟩ ⟨1, 0, 1⟩ ⟨0, 1, 1⟩ false).hit = false := by
    simp [raycast3.intersectsTriangle, vec3.dot, vec3.cross, vec3.sub, raycast3.missResult]
  have h := c10_miss_resets_outputs (⟨⟨0, 0, 0⟩, ⟨1, 0, 0⟩, 5⟩ : Raycast3 ℚ)
    ⟨0, 0, 1⟩ ⟨1, 0, 1⟩ ⟨0, 1, 1⟩ false hmiss
  ⟨hmiss, h.1, h.2⟩

/-- C6: on a degenerate triangle whose three vertices coincide, the
AABB-triangle SAT test agrees exactly with inclusive point containment:
all nine cross-product axes and the triangle face normal are zero and are
skipped, and the three face-normal tests reduce to the interval test. -/
theorem c6_degenerate_triangle_is_point {K : Type} [LinearOrderedField K]
    (box : Box3 K) (a : Vec3 K)
    (hx : box.minX ≤ box.maxX) (hy : box.minY ≤ box.maxY) (hz : box.minZ ≤ box.maxZ) :
    box3.intersectsTriangle3 box a a a = box3.containsPoint box a := by
  simp only [box3.intersectsTriangle3]
  rw [if_neg (by push_neg; exact ⟨hx, hy, hz⟩)]
  simp only [vec3.sub, vec3.cross, sub_self, neg_zero, mul_zero, zero_mul, sub_zero, zero_sub]
  repeat rw [satForAxes_zero_cons]
  rw [satForAxes_face]
  simp only [box3.satForAxes]
  norm_num
  rw [Bool.eq_iff_iff]
  simp only [Bool.and_eq_true, Bool.not_eq_true', decide_eq_false_iff_not, decide_eq_true_eq,
    box3.containsPoint, ge_iff_le, not_lt, and_assoc]
  constructor
  · rintro ⟨h1, h2, h3, h4, h5, h6⟩
    refine ⟨?_, ?_, ?_, ?_, ?_, ?_⟩ <;> linarith
  · rintro ⟨h1, h2, h3, h4, h5, h6⟩
    refine ⟨?_, ?_, ?_, ?_, ?_, ?_⟩ <;> linarith

/-- C6 witness: the degenerate-triangle equivalence applied to the unit box
and a point inside it. -/
theorem c6_degenerate_triangle_is_point_witness :
    (0 : ℚ) ≤ 1 ∧
    box3.intersectsTriangle3 (⟨0, 0, 0, 1, 1, 1⟩ : Box3 ℚ) ⟨1/2, 1/2, 1/2⟩ ⟨1/2, 1/2, 1/2⟩
      ⟨1/2, 1/2, 1/2⟩ = box3.containsPoint (⟨0, 0, 0, 1, 1, 1⟩ : Box3 ℚ) ⟨1/2, 1/2, 1/2⟩ :=
  ⟨by norm_num,
   c6_degenerate_triangle_is_point (⟨0, 0, 0, 1, 1, 1⟩ : Box3 ℚ) ⟨1/2, 1/2, 1/2⟩
     (by norm_num) (by norm_num) (by norm_num)⟩

/-- C7: every corner of a valid box, transformed through an arbitrary 4x4
matrix, is contained (inclusively) in the box produced by `transformMat4`.
Stated over an arbitrary linear ordered field, so it holds in particular over
the reals for the unit box under a 45-degree Z-rotation. -/
theorem c7_transform_corners_contained {K : Type} [LinearOrderedField K]
    (box : Box3 K) (m : Mat4 K)
    (hvalid : box.minX ≤ box.maxX ∧ box.minY ≤ box.maxY ∧ box.minZ ≤ box.maxZ)
    (p : Vec3 K) (hp : p ∈ box3.corners box) :
    box3.containsPoint (box3.transformMat4 box m) (vec3.transformMat4 p m) = true := by
  unfold box3.transformMat4
  have hmem : vec3.transformMat4 p m ∈ (box3.corners box).map (fun q => vec3.transformMat4 q m) :=
    List.mem_map_of_mem _ hp
  rcases hlist : (box3.corners box).map (fun q => vec3.transformMat4 q m) with _ | ⟨t, ts⟩
  · rw [hlist] at hmem
    cases hmem
  · rw [hlist] at hmem
    rcases List.mem_cons.mp hmem with h | h
    · subst h
      exact containsPoint_of_boxWidens (foldl_expandCorner_boxWidens ts _)
        ⟨le_refl _, le_refl _, le_refl _, le_refl _, le_refl _, le_refl _⟩
    · exact foldl_expandCorner_covers ts _ _ h

/-- C7 witness: the unit box transformed by a rational rotation (3-4-5
Z-rotation) plus translation, with the all-max corner. -/
theorem c7_transform_corners_contained_witness :
    ((0 : ℚ) ≤ 1 ∧ (0 : ℚ) ≤ 1 ∧ (0 : ℚ) ≤ 1) ∧
    (⟨1, 1, 1⟩ : Vec3 ℚ) ∈ box3.corners (⟨0, 0, 0, 1, 1, 1⟩ : Box3 ℚ) ∧
    box3.containsPoint
      (box3.transformMat4 (⟨0, 0, 0, 1, 1, 1⟩ : Box3 ℚ)
        ⟨3/5, 4/5, 0, 0, -4/5, 3/5, 0, 0, 0, 0, 1, 0, 1, 2, 3, 1⟩)
      (vec3.transformMat4 ⟨1, 1, 1⟩ ⟨3/5, 4/5, 0, 0, -4/5, 3/5, 0, 0, 0, 0, 1, 0, 1, 2, 3, 1⟩)
      = true :=
  ⟨by norm_num, by norm_num [box3.corners],
   c7_transform_corners_contained (⟨0, 0, 0, 1, 1, 1⟩ : Box3 ℚ)
     ⟨3/5, 4/5, 0, 0, -4/5, 3/5, 0, 0, 0, 0, 1, 0, 1, 2, 3, 1⟩
     (by norm_num) ⟨1, 1, 1⟩ (by norm_num [box3.corners])⟩

/-- C9: the AABB overlap test treats boundaries as closed: two valid boxes
whose closed intervals meet on every axis - in particular a pair that touch
exactly on one axis - are reported as intersecting; and concretely the unit
box touches `[1,0,0,2,1,1]` at the face `x = 1`. -/
theorem c9_touching_boxes_intersect {K : Type} [LinearOrderedField K] (A B : Box3 K)
    (hA : A.minX ≤ A.maxX ∧ A.minY ≤ A.maxY ∧ A.minZ ≤ A.maxZ)
    (hB : B.minX ≤ B.maxX ∧ B.minY ≤ B.maxY ∧ B.minZ ≤ B.maxZ)
    (hoverX : A.minX ≤ B.maxX ∧ B.minX ≤ A.maxX)
    (hoverY : A.minY ≤ B.maxY ∧ B.minY ≤ A.maxY)
    (hoverZ : A.minZ ≤ B.maxZ ∧ B.minZ ≤ A.maxZ)
    (htouch : A.maxX = B.minX ∨ B.maxX = A.minX ∨ A.maxY = B.minY ∨ B.maxY = A.minY ∨
      A.maxZ = B.minZ ∨ B.maxZ = A.minZ) :
    box3.intersectsBox3 A B = true ∧
    box3.intersectsBox3 (⟨0, 0, 0, 1, 1, 1⟩ : Box3 K) ⟨1, 0, 0, 2, 1, 1⟩ = true := by
  constructor
  · simp only [box3.intersectsBox3, Bool.and_eq_true, decide_eq_true_eq, ge_iff_le]
    refine ⟨⟨⟨⟨⟨?_, ?_⟩, ?_⟩, ?_⟩, ?_⟩, ?_⟩ <;> tauto
  · norm_num [box3.intersectsBox3]

/-- C9 witness: the touching pair from the spec, the unit box against
`[1,0,0,2,1,1]`. -/
theorem c9_touching_boxes_intersect_witness :
    box3.intersectsBox3 (⟨0, 0, 0, 1, 1, 1⟩ : Box3 ℚ) ⟨1, 0, 0, 2, 1, 1⟩ = true :=
  (c9_touching_boxes_intersect (⟨0, 0, 0, 1, 1, 1⟩ : Box3 ℚ) ⟨1, 0, 0, 2, 1, 1⟩
    (by norm_num) (by norm_num) (by norm_num) (by norm_num) (by norm_num)
    (Or.inl (by norm_num))).1


open obb3 in
set_option maxHeartbeats 4000000 in
/-- C4: for orthonormal rotation matrices the 15-axis OBB-OBB separating
axis test is symmetric in its two box arguments, for every epsilon: each
axis test of `intersectsOBB3 a b` is matched by the corresponding test of
`intersectsOBB3 b a` with equal compared values, using completeness of the
orthonormal bases and the unit-determinant cross-product identities. -/
theorem c4_obb_sat_symmetric (a b : OBB3 K) (e : K)
    (ha : Orthonormal a.rotation) (hb : Orthonormal b.rotation) :
    intersectsOBB3 a b e = intersectsOBB3 b a e := by
  rw [Bool.eq_iff_iff, intersectsOBB3_iff, intersectsOBB3_iff]
  have hR00 : R00 b a = R00 a b := by
    simp only [R00, vec3.dot, mat3.col0]
    ring
  have hR01 : R01 b a = R10 a b := by
    simp only [R01, R10, vec3.dot, mat3.col0, mat3.col1]
    ring
  have hR02 : R02 b a = R20 a b := by
    simp only [R02, R20, vec3.dot, mat3.col0, mat3.col2]
    ring
  have hR10 : R10 b a = R01 a b := by
    simp only [R01, R10, vec3.dot, mat3.col0, mat3.col1]
    ring
  have hR11 : R11 b a = R11 a b := by
    simp only [R11, vec3.dot, mat3.col1]
    ring
  have hR12 : R12 b a = R21 a b := by
    simp only [R12, R21, vec3.dot, mat3.col1, mat3.col2]
    ring
  have hR20 : R20 b a = R02 a b := by
    simp only [R02, R20, vec3.dot, mat3.col0, mat3.col2]
    ring
  have hR21 : R21 b a = R12 a b := by
    simp only [R12, R21, vec3.dot, mat3.col1, mat3.col2]
    ring
  have hR22 : R22 b a = R22 a b := by
    simp only [R22, vec3.dot, mat3.col2]
    ring
  have hS1 : b.halfExtents.x + (a.halfExtents.x * (|R00 b a| + e) + a.halfExtents.y * (|R01 b a| + e) +
        a.halfExtents.z * (|R02 b a| + e)) = a.halfExtents.x * (|R00 a b| + e) + a.halfExtents.y * (|R10 a b| + e) +
        a.halfExtents.z * (|R20 a b| + e) + b.halfExtents.x := by
    simp only [hR00, hR01, hR02, hR10, hR11, hR12, hR20, hR21, hR22]
    ring
  have hX1 : |tA0 b a| = |tA0 a b * R00 a b + tA1 a b * R10 a b + tA2 a b * R20 a b| := by
    have hexp := dot_expand ha (vec3.sub b.center a.center) (mat3.col0 b.rotation)
    have hneg : vec3.dot (vec3.sub a.center b.center) (mat3.col0 b.rotation) =
        -(vec3.dot (vec3.sub b.center a.center) (mat3.col0 b.rotation)) := by
      simp only [vec3.dot, vec3.sub]
      ring
    simp only [tA0, tA1, tA2, R00, R01, R02, R10, R11, R12, R20, R21, R22]
    rw [hneg, abs_neg, hexp]
  have hS2 : b.halfExtents.y + (a.halfExtents.x * (|R10 b a| + e) + a.halfExtents.y * (|R11 b a| + e) +
        a.halfExtents.z * (|R12 b a| + e)) = a.halfExtents.x * (|R01 a b| + e) + a.halfExtents.y * (|R11 a b| + e) +
        a.halfExtents.z * (|R21 a b| + e) + b.halfExtents.y := by
    simp only [hR00, hR01, hR02, hR10, hR11, hR12, hR20, hR21, hR22]
    ring
  have hX2 : |tA1 b a| = |tA0 a b * R01 a b + tA1 a b * R11 a b + tA2 a b * R21 a b| := by
    have hexp := dot_expand ha (vec3.sub b.center a.center) (mat3.col1 b.rotation)
    have hneg : vec3.dot (vec3.sub a.center b.center) (mat3.col1 b.rotation) =
        -(vec3.dot (vec3.sub b.center a.center) (mat3.col1 b.rotation)) := by
      simp only [vec3.dot, vec3.sub]
      ring
    simp only [tA0, tA1, tA2, R00, R01, R02, R10, R11, R12, R20, R21, R22]
    rw [hneg, abs_neg, hexp]
  have hS3 : b.halfExtents.z + (a.halfExtents.x * (|R20 b a| + e) + a.halfExtents.y * (|R21 b a| + e) +
        a.halfExtents.z * (|R22 b a| + e)) = a.halfExtents.x * (|R02 a b| + e) + a.halfExtents.y * (|R12 a b| + e) +
        a.halfExtents.z * (|R22 a b| + e) + b.halfExtents.z := by
    simp only [hR00, hR01, hR02, hR10, hR11, hR12, hR20, hR21, hR22]
    ring
  have hX3 : |tA2 b a| = |tA0 a b * R02 a b + tA1 a b * R12 a b + tA2 a b * R22 a b| := by
    have hexp := dot_expand ha (vec3.sub b.center a.center) (mat3.col2 b.rotation)
    have hneg : vec3.dot (vec3.sub a.center b.center) (mat3.col2 b.rotation) =
        -(vec3.dot (vec3.sub b.center a.center) (mat3.col2 b.rotation)) := by
      simp only [vec3.dot, vec3.sub]
      ring
    simp only [tA0, tA1, tA2, R00, R01, R02, R10, R11, R12, R20, R21, R22]
    rw [hneg, abs_neg, hexp]
  have hS4 : b.halfExtents.x * (|R00 b a| + e) + b.halfExtents.y * (|R10 b a| + e) +
        b.halfExtents.z * (|R20 b a| + e) + a.halfExtents.x = a.halfExtents.x + (b.halfExtents.x * (|R00 a b| + e) + b.halfExtents.y * (|R01 a b| + e) +
        b.halfExtents.z * (|R02 a b| + e)) := by
    simp only [hR00, hR01, hR02, hR10, hR11, hR12, hR20, hR21, hR22]
    ring
  have hX4 : |tA0 b a * R00 b a + tA1 b a * R10 b a + tA2 b a * R20 b a| = |tA0 a b| := by
    have hexp := dot_expand hb (vec3.sub a.center b.center) (mat3.col0 a.rotation)
    have hneg : vec3.dot (vec3.sub a.center b.center) (mat3.col0 a.rotation) =
        -(vec3.dot (vec3.sub b.center a.center) (mat3.col0 a.rotation)) := by
      simp only [vec3.dot, vec3.sub]
      ring
    simp only [tA0, tA1, tA2, R00, R01, R02, R10, R11, R12, R20, R21, R22]
    rw [← hexp, hneg, abs_neg]
  have hS5 : b.halfExtents.x * (|R01 b a| + e) + b.halfExtents.y * (|R11 b a| + e) +
        b.halfExtents.z * (|R21 b a| + e) + a.halfExtents.y = a.halfExtents.y + (b.halfExtents.x * (|R10 a b| + e) + b.halfExtents.y * (|R11 a b| + e) +
        b.halfExtents.z * (|R12 a b| + e)) := by
    simp only [hR00, hR01, hR02, hR10, hR11, hR12, hR20, hR21, hR22]
    ring
  have hX5 : |tA0 b a * R01 b a + tA1 b a * R11 b a + tA2 b a * R21 b a| = |tA1 a b| := by
    have hexp := dot_expand hb (vec3.sub a.center b.center) (mat3.col1 a.rotation)
    have hneg : vec3.dot (vec3.sub a.center b.center) (mat3.col1 a.rotation) =
        -(vec3.dot (vec3.sub b.center a.center) (mat3.col1 a.rotation)) := by
      simp only [vec3.dot, vec3.sub]
      ring
    simp only [tA0, tA1, tA2, R00, R01, R02, R10, R11, R12, R20, R21, R22]
    rw [← hexp, hneg, abs_neg]
  have hS6 : b.halfExtents.x * (|R02 b a| + e) + b.halfExtents.y * (|R12 b a| + e) +
        b.halfExtents.z * (|R22 b a| + e) + a.halfExtents.z = a.halfExtents.z + (b.halfExtents.x * (|R20 a b| + e) + b.halfExtents.y * (|R21 a b| + e) +
        b.halfExtents.z * (|R22 a b| + e)) := by
    simp only [hR00, hR01, hR02, hR10, hR11, hR12, hR20, hR21, hR22]
    ring
  have hX6 : |tA0 b a * R02 b a + tA1 b a * R12 b a + tA2 b a * R22 b a| = |tA2 a b| := by
    have hexp := dot_expand hb (vec3.sub a.center b.center) (mat3.col2 a.rotation)
    have hneg : vec3.dot (vec3.sub a.center b.center) (mat3.col2 a.rotation) =
        -(vec3.dot (vec3.sub b.center a.center) (mat3.col2 a.rotation)) := by
      simp only [vec3.dot, vec3.sub]
      ring
    simp only [tA0, tA1, tA2, R00, R01, R02, R10, R11, R12, R20, R21, R22]
    rw [← hexp, hneg, abs_neg]
  have hS7 : b.halfExtents.y * (|R20 b a| + e) + b.halfExtents.z * (|R10 b a| + e) +
        (a.halfExtents.y * (|R02 b a| + e) + a.halfExtents.z * (|R01 b a| + e)) = a.halfExtents.y * (|R20 a b| + e) + a.halfExtents.z * (|R10 a b| + e) +
        (b.halfExtents.y * (|R02 a b| + e) + b.halfExtents.z * (|R01 a b| + e)) := by
    simp only [hR00, hR01, hR02, hR10, hR11, hR12, hR20, hR21, hR22]
    ring
  have hX7 : |tA2 b a * R10 b a - tA1 b a * R20 b a| = |tA2 a b * R10 a b - tA1 a b * R20 a b| := by
    have hba := absE0 hb (vec3.sub a.center b.center) (mat3.col0 a.rotation)
    have hab := absE0 ha (vec3.sub b.center a.center) (mat3.col0 b.rotation)
    have hmid : vec3.dot (vec3.sub a.center b.center)
        (vec3.cross (mat3.col0 b.rotation) (mat3.col0 a.rotation)) =
        vec3.dot (vec3.sub b.center a.center)
          (vec3.cross (mat3.col0 a.rotation) (mat3.col0 b.rotation)) := by
      simp only [vec3.dot, vec3.cross, vec3.sub, mat3.col0, mat3.col1, mat3.col2]
      ring
    simp only [tA0, tA1, tA2, R00, R01, R02, R10, R11, R12, R20, R21, R22]
    rw [hba, hmid, ← hab]
  have hS8 : b.halfExtents.y * (|R21 b a| + e) + b.halfExtents.z * (|R11 b a| + e) +
        (a.halfExtents.x * (|R02 b a| + e) + a.halfExtents.z * (|R00 b a| + e)) = a.halfExtents.x * (|R20 a b| + e) + a.halfExtents.z * (|R00 a b| + e) +
        (b.halfExtents.y * (|R12 a b| + e) + b.halfExtents.z * (|R11 a b| + e)) := by
    simp only [hR00, hR01, hR02, hR10, hR11, hR12, hR20, hR21, hR22]
    ring
  have hX8 : |tA2 b a * R11 b a - tA1 b a * R21 b a| = |tA0 a b * R20 a b - tA2 a b * R00 a b| := by
    have hba := absE0 hb (vec3.sub a.center b.center) (mat3.col1 a.rotation)
    have hab := absE1 ha (vec3.sub b.center a.center) (mat3.col0 b.rotation)
    have hmid : vec3.dot (vec3.sub a.center b.center)
        (vec3.cross (mat3.col0 b.rotation) (mat3.col1 a.rotation)) =
        vec3.dot (vec3.sub b.center a.center)
          (vec3.cross (mat3.col1 a.rotation) (mat3.col0 b.rotation)) := by
      simp only [vec3.dot, vec3.cross, vec3.sub, mat3.col0, mat3.col1, mat3.col2]
      ring
    simp only [tA0, tA1, tA2, R00, R01, R02, R10, R11, R12, R20, R21, R22]
    rw [hba, hmid, ← hab]
  have hS9 : b.halfExtents.y * (|R22 b a| + e) + b.halfExtents.z * (|R12 b a| + e) +
        (a.halfExtents.x * (|R01 b a| + e) + a.halfExtents.y * (|R00 b a| + e)) = a.halfExtents.x * (|R10 a b| + e) + a.halfExtents.y * (|R00 a b| + e) +
        (b.halfExtents.y * (|R22 a b| + e) + b.halfExtents.z * (|R21 a b| + e)) := by
    simp only [hR00, hR01, hR02, hR10, hR11, hR12, hR20, hR21, hR22]
    ring
  have hX9 : |tA2 b a * R12 b a - tA1 b a * R22 b a| = |tA1 a b * R00 a b - tA0 a b * R10 a b| := by
    have hba := absE0 hb (vec3.sub a.center b.center) (mat3.col2 a.rotation)
    have hab := absE2 ha (vec3.sub b.center a.center) (mat3.col0 b.rotation)
    have hmid : vec3.dot (vec3.sub a.center b.center)
        (vec3.cross (mat3.col0 b.rotation) (mat3.col2 a.rotation)) =
        vec3.dot (vec3.sub b.center a.center)
          (vec3.cross (mat3.col2 a.rotation) (mat3.col0 b.rotation)) := by
      simp only [vec3.dot, vec3.cross, vec3.sub, mat3.col0, mat3.col1, mat3.col2]
      ring
    simp only [tA0, tA1, tA2, R00, R01, R02, R10, R11, R12, R20, R21, R22]
    rw [hba, hmid, ← hab]
  have hS10 : b.halfExtents.x * (|R20 b a| + e) + b.halfExtents.z * (|R00 b a| + e) +
        (a.halfExtents.y * (|R12 b a| + e) + a.halfExtents.z * (|R11 b a| + e)) = a.halfExtents.y * (|R21 a b| + e) + a.halfExtents.z * (|R11 a b| + e) +
        (b.halfExtents.x * (|R02 a b| + e) + b.halfExtents.z * (|R00 a b| + e)) := by
    simp only [hR00, hR01, hR02, hR10, hR11, hR12, hR20, hR21, hR22]
    ring
  have hX10 : |tA0 b a * R20 b a - tA2 b a * R00 b a| = |tA2 a b * R11 a b - tA1 a b * R21 a b| := by
    have hba := absE1 hb (vec3.sub a.center b.center) (mat3.col0 a.rotation)
    have hab := absE0 ha (vec3.sub b.center a.center) (mat3.col1 b.rotation)
    have hmid : vec3.dot (vec3.sub a.center b.center)
        (vec3.cross (mat3.col1 b.rotation) (mat3.col0 a.rotation)) =
        vec3.dot (vec3.sub b.center a.center)
          (vec3.cross (mat3.col0 a.rotation) (mat3.col1 b.rotation)) := by
      simp only [vec3.dot, vec3.cross, vec3.sub, mat3.col0, mat3.col1, mat3.col2]
      ring
    simp only [tA0, tA1, tA2, R00, R01, R02, R10, R11, R12, R20, R21, R22]
    rw [hba, hmid, ← hab]
  have hS11 : b.halfExtents.x * (|R21 b a| + e) + b.halfExtents.z * (|R01 b a| + e) +
        (a.halfExtents.x * (|R12 b a| + e) + a.halfExtents.z * (|R10 b a| + e)) = a.halfExtents.x * (|R21 a b| + e) + a.halfExtents.z * (|R01 a b| + e) +
        (b.halfExtents.x * (|R12 a b| + e) + b.halfExtents.z * (|R10 a b| + e)) := by
    simp only [hR00, hR01, hR02, hR10, hR11, hR12, hR20, hR21, hR22]
    ring
  have hX11 : |tA0 b a * R21 b a - tA2 b a * R01 b a| = |tA0 a b * R21 a b - tA2 a b * R01 a b| := by
    have hba := absE1 hb (vec3.sub a.center b.center) (mat3.col1 a.rotation)
    have hab := absE1 ha (vec3.sub b.center a.center) (mat3.col1 b.rotation)
    have hmid : vec3.dot (vec3.sub a.center b.center)
        (vec3.cross (mat3.col1 b.rotation) (mat3.col1 a.rotation)) =
        vec3.dot (vec3.sub b.center a.center)
          (vec3.cross (mat3.col1 a.rotation) (mat3.col1 b.rotation)) := by
      simp only [vec3.dot, vec3.cross, vec3.sub, mat3.col0, mat3.col1, mat3.col2]
      ring
    simp only [tA0, tA1, tA2, R00, R01, R02, R10, R11, R12, R20, R21, R22]
    rw [hba, hmid, ← hab]
  have hS12 : b.halfExtents.x * (|R22 b a| + e) + b.halfExtents.z * (|R02 b a| + e) +
        (a.halfExtents.x * (|R11 b a| + e) + a.halfExtents.y * (|R10 b a| + e)) = a.halfExtents.x * (|R11 a b| + e) + a.halfExtents.y * (|R01 a b| + e) +
        (b.halfExtents.x * (|R22 a b| + e) + b.halfExtents.z * (|R20 a b| + e)) := by
    simp only [hR00, hR01, hR02, hR10, hR11, hR12, hR20, hR21, hR22]
    ring
  have hX12 : |tA0 b a * R22 b a - tA2 b a * R02 b a| = |tA1 a b * R01 a b - tA0 a b * R11 a b| := by
    have hba := absE1 hb (vec3.sub a.center b.center) (mat3.col2 a.rotation)
    have hab := absE2 ha (vec3.sub b.center a.center) (mat3.col1 b.rotation)
    have hmid : vec3.dot (vec3.sub a.center b.center)
        (vec3.cross (mat3.col1 b.rotation) (mat3.col2 a.rotation)) =
        vec3.dot (vec3.sub b.center a.center)
          (vec3.cross (mat3.col2 a.rotation) (mat3.col1 b.rotation)) := by
      simp only [vec3.dot, vec3.cross, vec3.sub, mat3.col0, mat3.col1, mat3.col2]
      ring
    simp only [tA0, tA1, tA2, R00, R01, R02, R10, R11, R12, R20, R21, R22]
    rw [hba, hmid, ← hab]
  have hS13 : b.halfExtents.x * (|R10 b a| + e) + b.halfExtents.y * (|R00 b a| + e) +
        (a.halfExtents.y * (|R22 b a| + e) + a.halfExtents.z * (|R21 b a| + e)) = a.halfExtents.y * (|R22 a b| + e) + a.halfExtents.z * (|R12 a b| + e) +
        (b.halfExtents.x * (|R01 a b| + e) + b.halfExtents.y * (|R00 a b| + e)) := by
    simp only [hR00, hR01, hR02, hR10, hR11, hR12, hR20, hR21, hR22]
    ring
  have hX13 : |tA1 b a * R00 b a - tA0 b a * R10 b a| = |tA2 a b * R12 a b - tA1 a b * R22 a b| := by
    have hba := absE2 hb (vec3.sub a.center b.center) (mat3.col0 a.rotation)
    have hab := absE0 ha (vec3.sub b.center a.center) (mat3.col2 b.rotation)
    have hmid : vec3.dot (vec3.sub a.center b.center)
        (vec3.cross (mat3.col2 b.rotation) (mat3.col0 a.rotation)) =
        vec3.dot (vec3.sub b.center a.center)
          (vec3.cross (mat3.col0 a.rotation) (mat3.col2 b.rotation)) := by
      simp only [vec3.dot, vec3.cross, vec3.sub, mat3.col0, mat3.col1, mat3.col2]
      ring
    simp only [tA0, tA1, tA2, R00, R01, R02, R10, R11, R12, R20, R21, R22]
    rw [hba, hmid, ← hab]
  have hS14 : b.halfExtents.x * (|R11 b a| + e) + b.halfExtents.y * (|R01 b a| + e) +
        (a.halfExtents.x * (|R22 b a| + e) + a.halfExtents.z * (|R20 b a| + e)) = a.halfExtents.x * (|R22 a b| + e) + a.halfExtents.z * (|R02 a b| + e) +
        (b.halfExtents.x * (|R11 a b| + e) + b.halfExtents.y * (|R10 a b| + e)) := by
    simp only [hR00, hR01, hR02, hR10, hR11, hR12, hR20, hR21, hR22]
    ring
  have hX14 : |tA1 b a * R01 b a - tA0 b a * R11 b a| = |tA0 a b * R22 a b - tA2 a b * R02 a b| := by
    have hba := absE2 hb (vec3.sub a.center b.center) (mat3.col1 a.rotation)
    have hab := absE1 ha (vec3.sub b.center a.center) (mat3.col2 b.rotation)
    have hmid : vec3.dot (vec3.sub a.center b.center)
        (vec3.cross (mat3.col2 b.rotation) (mat3.col1 a.rotation)) =
        vec3.dot (vec3.sub b.center a.center)
          (vec3.cross (mat3.col1 a.rotation) (mat3.col2 b.rotation)) := by
      simp only [vec3.dot, vec3.cross, vec3.sub, mat3.col0, mat3.col1, mat3.col2]
      ring
    simp only [tA0, tA1, tA2, R00, R01, R02, R10, R11, R12, R20, R21, R22]
    rw [hba, hmid, ← hab]
  have hS15 : b.halfExtents.x * (|R12 b a| + e) + b.halfExtents.y * (|R02 b a| + e) +
        (a.halfExtents.x * (|R21 b a| + e) + a.halfExtents.y * (|R20 b a| + e)) = a.halfExtents.x * (|R12 a b| + e) + a.halfExtents.y * (|R02 a b| + e) +
        (b.halfExtents.x * (|R21 a b| + e) + b.halfExtents.y * (|R20 a b| + e)) := by
    simp only [hR00, hR01, hR02, hR10, hR11, hR12, hR20, hR21, hR22]
    ring
  have hX15 : |tA1 b a * R02 b a - tA0 b a * R12 b a| = |tA1 a b * R02 a b - tA0 a b * R12 a b| := by
    have hba := absE2 hb (vec3.sub a.center b.center) (mat3.col2 a.rotation)
    have hab := absE2 ha (vec3.sub b.center a.center) (mat3.col2 b.rotation)
    have hmid : vec3.dot (vec3.sub a.center b.center)
        (vec3.cross (mat3.col2 b.rotation) (mat3.col2 a.rotation)) =
        vec3.dot (vec3.sub b.center a.center)
          (vec3.cross (mat3.col2 a.rotation) (mat3.col2 b.rotation)) := by
      simp only [vec3.dot, vec3.cross, vec3.sub, mat3.col0, mat3.col1, mat3.col2]
      ring
    simp only [tA0, tA1, tA2, R00, R01, R02, R10, R11, R12, R20, R21, R22]
    rw [hba, hmid, ← hab]
  have I1 := cond_congr hS1 hX1
  have I2 := cond_congr hS2 hX2
  have I3 := cond_congr hS3 hX3
  have I4 := cond_congr hS4 hX4
  have I5 := cond_congr hS5 hX5
  have I6 := cond_congr hS6 hX6
  have I7 := cond_congr hS7 hX7
  have I8 := cond_congr hS8 hX8
  have I9 := cond_congr hS9 hX9
  have I10 := cond_congr hS10 hX10
  have I11 := cond_congr hS11 hX11
  have I12 := cond_congr hS12 hX12
  have I13 := cond_congr hS13 hX13
  have I14 := cond_congr hS14 hX14
  have I15 := cond_congr hS15 hX15
  constructor
  · rintro ⟨c1, c2, c3, c4, c5, c6, c7, c8, c9, c10, c11, c12, c13, c14, c15⟩
    exact ⟨I1.mpr c4, I2.mpr c5, I3.mpr c6, I4.mpr c1, I5.mpr c2, I6.mpr c3, I7.mpr c7, I8.mpr c10, I9.mpr c13, I10.mpr c8, I11.mpr c11, I12.mpr c14, I13.mpr c9, I14.mpr c12, I15.mpr c15⟩
  · rintro ⟨d1, d2, d3, d4, d5, d6, d7, d8, d9, d10, d11, d12, d13, d14, d15⟩
    exact ⟨I4.mp d4, I5.mp d5, I6.mp d6, I1.mp d1, I2.mp d2, I3.mp d3, I7.mp d7, I10.mp d10, I13.mp d13, I8.mp d8, I11.mp d11, I14.mp d14, I9.mp d9, I12.mp d12, I15.mp d15⟩

open obb3 in
/-- C4 witness: two identical unit OBBs with identity rotations and zero
epsilon. -/
theorem c4_obb_sat_symmetric_witness :
    obb3.Orthonormal (mat3.identity : Mat3 ℚ) ∧
    intersectsOBB3 ⟨⟨0, 0, 0⟩, ⟨1, 1, 1⟩, mat3.identity⟩
        ⟨⟨2, 0, 0⟩, ⟨1, 1, 1⟩, (mat3.identity : Mat3 ℚ)⟩ 0 =
      intersectsOBB3 ⟨⟨2, 0, 0⟩, ⟨1, 1, 1⟩, mat3.identity⟩
        ⟨⟨0, 0, 0⟩, ⟨1, 1, 1⟩, (mat3.identity : Mat3 ℚ)⟩ 0 :=
  ⟨by constructor <;> norm_num [obb3.Orthonormal, vec3.dot, mat3.col0, mat3.col1, mat3.col2,
      mat3.identity],
   c4_obb_sat_symmetric ⟨⟨0, 0, 0⟩, ⟨1, 1, 1⟩, mat3.identity⟩
     ⟨⟨2, 0, 0⟩, ⟨1, 1, 1⟩, mat3.identity⟩ 0
     (by constructor <;> norm_num [obb3.Orthonormal, vec3.dot, mat3.col0, mat3.col1, mat3.col2,
       mat3.identity])
     (by constructor <;> norm_num [obb3.Orthonormal, vec3.dot, mat3.col0, mat3.col1, mat3.col2,
       mat3.identity])⟩

open obb3 in
/-- C5: when a point is inside an OBB with orthonormal rotation (inclusive
containment), clamping it to the OBB returns the point itself: each axis
projection is within the half extent, the clamps are identities, and
completeness of the orthonormal basis reassembles the point. -/
theorem c5_clamp_point_inside (obb : OBB3 K) (p : Vec3 K)
    (ho : Orthonormal obb.rotation) (hc : containsPoint obb p = true) :
    clampPoint obb p = p := by
  simp only [containsPoint, Bool.and_eq_true, decide_eq_true_eq] at hc
  obtain ⟨⟨h1, h2⟩, h3⟩ := hc
  obtain ⟨l1, u1⟩ := abs_le.mp h1
  obtain ⟨l2, u2⟩ := abs_le.mp h2
  obtain ⟨l3, u3⟩ := abs_le.mp h3
  have k0 := complete_x ho (vec3.sub p obb.center)
  have k1 := complete_y ho (vec3.sub p obb.center)
  have k2 := complete_z ho (vec3.sub p obb.center)
  unfold clampPoint
  dsimp only
  rw [min_eq_right u1, max_eq_right l1, min_eq_right u2, max_eq_right l2,
    min_eq_right u3, max_eq_right l3]
  have hsub0 : (vec3.sub p obb.center).x = p.x - obb.center.x := rfl
  have hsub1 : (vec3.sub p obb.center).y = p.y - obb.center.y := rfl
  have hsub2 : (vec3.sub p obb.center).z = p.z - obb.center.z := rfl
  rw [hsub0] at k0
  rw [hsub1] at k1
  rw [hsub2] at k2
  cases p
  simp only [Vec3.mk.injEq]
  refine ⟨by linarith, by linarith, by linarith⟩

open obb3 in
/-- C5 witness: a point strictly inside a unit OBB at the origin. -/
theorem c5_clamp_point_inside_witness :
    obb3.Orthonormal (mat3.identity : Mat3 ℚ) ∧
    containsPoint ⟨⟨0, 0, 0⟩, ⟨1, 1, 1⟩, (mat3.identity : Mat3 ℚ)⟩ ⟨1/2, 0, 0⟩ = true ∧
    clampPoint ⟨⟨0, 0, 0⟩, ⟨1, 1, 1⟩, (mat3.identity : Mat3 ℚ)⟩ ⟨1/2, 0, 0⟩ = ⟨1/2, 0, 0⟩ :=
  have hortho : obb3.Orthonormal (mat3.identity : Mat3 ℚ) := by
    constructor <;> norm_num [obb3.Orthonormal, vec3.dot, mat3.col0, mat3.col1, mat3.col2,
      mat3.identity]
  have hcont : containsPoint ⟨⟨0, 0, 0⟩, ⟨1, 1, 1⟩, (mat3.identity : Mat3 ℚ)⟩
      ⟨1/2, 0, 0⟩ = true := by
    norm_num [containsPoint, vec3.dot, vec3.sub, mat3.col0, mat3.col1, mat3.col2,
      mat3.identity, abs_le]
  ⟨hortho, hcont,
   c5_clamp_point_inside ⟨⟨0, 0, 0⟩, ⟨1, 1, 1⟩, mat3.identity⟩ ⟨1/2, 0, 0⟩ hortho hcont⟩

open obb3 in
/-- C3: `applyMatrix4` transforms the OBB center through the full matrix:
for every OBB and every affine 4x4 matrix (zero projective row, unit `m15`)
the output center is the 3x3 part applied to the input center plus the
translation column; and concretely, a 90-degree Z-rotation moves the center
`(1,0,0)` to `(0,1,0)`, which differs from center-plus-translation `(1,0,0)`. -/
theorem c3_applyMatrix4_center_full_matrix :
    (∀ (obb : OBB3 ℝ) (m : Mat4 ℝ), m.m3 = 0 → m.m7 = 0 → m.m11 = 0 → m.m15 = 1 →
      (applyMatrix4 obb m).center =
        ⟨m.m0 * obb.center.x + m.m4 * obb.center.y + m.m8 * obb.center.z + m.m12,
         m.m1 * obb.center.x + m.m5 * obb.center.y + m.m9 * obb.center.z + m.m13,
         m.m2 * obb.center.x + m.m6 * obb.center.y + m.m10 * obb.center.z + m.m14⟩) ∧
    (applyMatrix4 ⟨⟨1, 0, 0⟩, ⟨1, 1, 1⟩, mat3.identity⟩
      ⟨0, 1, 0, 0, -1, 0, 0, 0, 0, 0, 1, 0, 0, 0, 0, 1⟩).center = ⟨0, 1, 0⟩ ∧
    (⟨0, 1, 0⟩ : Vec3 ℝ) ≠ vec3.add ⟨1, 0, 0⟩ ⟨0, 0, 0⟩ := by
  refine ⟨?_, ?_, ?_⟩
  · intro obb m h3 h7 h11 h15
    unfold applyMatrix4
    dsimp only
    unfold vec3.transformMat4
    rw [h3, h7, h11, h15]
    norm_num
  · unfold applyMatrix4
    dsimp only
    unfold vec3.transformMat4
    norm_num
  · intro hcontra
    rw [vec3.add] at hcontra
    simp only [Vec3.mk.injEq] at hcontra
    norm_num at hcontra

open obb3 in
/-- C3 witness: the affine part applied to a pure translation by `(5,6,7)`
of the center `(1,2,3)`. -/
theorem c3_applyMatrix4_center_full_matrix_witness :
    ((0 : ℝ) = 0 ∧ (0 : ℝ) = 0 ∧ (0 : ℝ) = 0 ∧ (1 : ℝ) = 1) ∧
    (applyMatrix4 ⟨⟨1, 2, 3⟩, ⟨1, 1, 1⟩, mat3.identity⟩
      ⟨1, 0, 0, 0, 0, 1, 0, 0, 0, 0, 1, 0, 5, 6, 7, 1⟩).center = ⟨6, 8, 10⟩ :=
  ⟨⟨rfl, rfl, rfl, rfl⟩, by
    have h := c3_applyMatrix4_center_full_matrix.1 ⟨⟨1, 2, 3⟩, ⟨1, 1, 1⟩, mat3.identity⟩
      ⟨1, 0, 0, 0, 0, 1, 0, 0, 0, 0, 1, 0, 5, 6, 7, 1⟩ rfl rfl rfl rfl
    rw [h]
    norm_num⟩

end Theorems

end Mathcat
